import Mathlib

/-
  Verification development for the static site generator of this repository
  (scripts/build.mjs and docs/assets/js/tag-filter.js).

  The JavaScript source is shallowly embedded: JS values are modelled by the
  inductive type JSVal, strings by Lean String (working on the underlying
  List Char where convenient), and the partial-application of filesystem and
  frontmatter parsing is abstracted by passing the already-parsed file list
  to the loader.  Machine-level caveats of the model are noted next to each
  definition.
-/

namespace SupuUni

/-- Underlying character list of a string (String.data), the main carrier for
reasoning about the string algorithms of the build script. -/
def chars (s : String) : List Char := s.data

/-- Model of a JavaScript value as it can appear in frontmatter metadata and
template variables.  Numbers are modelled as integers (the build script never
produces fractional or NaN values for the fields it reads); objects other
than arrays do not occur in the embedded fragments. -/
inductive JSVal where
  | null
  | undefined
  | bool (b : Bool)
  | num (n : Int)
  | str (s : String)
  | arr (elems : List JSVal)
deriving Repr

mutual

/-- Boolean equality on modelled JS values (used for the Set-based tag
deduplication, whose SameValueZero semantics coincides with structural
equality on the modelled values). -/
def JSVal.beq : JSVal → JSVal → Bool
  | .null, .null => true
  | .undefined, .undefined => true
  | .bool a, .bool b => a == b
  | .num a, .num b => a == b
  | .str a, .str b => a == b
  | .arr a, .arr b => JSVal.beqList a b
  | _, _ => false

/-- Pointwise Boolean equality on lists of modelled JS values. -/
def JSVal.beqList : List JSVal → List JSVal → Bool
  | [], [] => true
  | a :: as, b :: bs => JSVal.beq a b && JSVal.beqList as bs
  | _, _ => false

end

instance : BEq JSVal := ⟨JSVal.beq⟩

/-- JavaScript truthiness of a modelled value. -/
def truthy : JSVal → Bool
  | .null => false
  | .undefined => false
  | .bool b => b
  | .num n => n != 0
  | .str s => s != ""
  | .arr _ => true

mutual

/-- JavaScript String(v) conversion on modelled values.  Arrays stringify by
joining their elements with commas, with null and undefined elements
contributing empty strings, as Array.prototype.toString does. -/
def jsToString : JSVal → String
  | .null => "null"
  | .undefined => "undefined"
  | .bool true => "true"
  | .bool false => "false"
  | .num n => toString n
  | .str s => s
  | .arr l => String.intercalate "," (jsJoinParts l)

/-- The per-element strings of Array.prototype.join with separator comma. -/
def jsJoinParts : List JSVal → List String
  | [] => []
  | .null :: t => "" :: jsJoinParts t
  | .undefined :: t => "" :: jsJoinParts t
  | v :: t => jsToString v :: jsJoinParts t

end

/-- Model of the JS test `v === 0` restricted to our value model: only the
number zero passes it. -/
def isNumZero : JSVal → Bool
  | .num n => n == 0
  | _ => false

/-- Model of `v ?? ''` followed by the string conversion that
String.prototype.replaceAll applies to its replacement argument. -/
def jsNullish : JSVal → String
  | .null => ""
  | .undefined => ""
  | v => jsToString v

/-- One global single-character replacement pass, the model of
String.prototype.replace with a /c/g regular expression and a literal
replacement (the replacement strings used by the script contain no dollar
sign, so no substitution-pattern processing arises here). -/
def replaceCharL (c : Char) (rep : List Char) : List Char → List Char
  | [] => []
  | x :: xs => (if x = c then rep else [x]) ++ replaceCharL c rep xs

/-- The four chained replacement passes of the escaper, on character lists:
ampersand first, then the angle brackets, then the double quote
(build.mjs lines 101-105). -/
def escChars (l : List Char) : List Char :=
  replaceCharL '"' (chars "&quot;")
    (replaceCharL '>' (chars "&gt;")
      (replaceCharL '<' (chars "&lt;")
        (replaceCharL '&' (chars "&amp;") l)))

/-- The escaper body on an actual string. -/
def escString (s : String) : String := ⟨escChars s.data⟩

/-- esc from build.mjs lines 99-106: `if (!str && str !== 0) return ''` and
otherwise the chained entity replacements applied to String(str). -/
def esc (str : JSVal) : String :=
  if truthy str = false ∧ isNumZero str = false then ""
  else escString (jsToString str)

/-- Entity equivalent of a single character, following the wording of the
specification (each HTML-sensitive character is replaced by its entity
equivalent).  Used to compare the implemented chained replacement against a
single simultaneous pass. -/
def escEntity (c : Char) : List Char :=
  if c = '&' then chars "&amp;"
  else if c = '<' then chars "&lt;"
  else if c = '>' then chars "&gt;"
  else if c = '"' then chars "&quot;"
  else [c]

/-- ECMAScript GetSubstitution for a string search pattern: dollar escapes in
the replacement string refer to the matched text and its surroundings; there
are no capture groups for a string pattern, so digit and named references
stay literal. -/
def getSubstitution (matched before after : List Char) : List Char → List Char
  | [] => []
  | c :: t =>
    if c = '$' then
      match t with
      | [] => ['$']
      | d :: t2 =>
        if d = '$' then '$' :: getSubstitution matched before after t2
        else if d = '&' then matched ++ getSubstitution matched before after t2
        else if d = '\x60' then before ++ getSubstitution matched before after t2
        else if d = '\x27' then after ++ getSubstitution matched before after t2
        else '$' :: getSubstitution matched before after (d :: t2)
    else c :: getSubstitution matched before after t

/-- Scanning core of String.prototype.replaceAll with a string pattern:
left-to-right, non-overlapping, each match emitting the processed
replacement; `before` is the already scanned text (needed by the dollar
escapes).  The fuel starts at the length of the subject and decreases by one
per step, which suffices because a match consumes at least one character. -/
def replaceAllGo (pat rep : List Char) : List Char → Nat → List Char → List Char
  | _, _, [] => []
  | _, 0, s => s
  | before, fuel + 1, c :: t =>
    if pat.isPrefixOf (c :: t) ∧ pat ≠ [] then
      getSubstitution pat before ((c :: t).drop pat.length) rep
        ++ replaceAllGo pat rep (before ++ pat) fuel ((c :: t).drop pat.length)
    else
      c :: replaceAllGo pat rep (before ++ [c]) fuel t

/-- String.prototype.replaceAll on character lists.  (For an empty pattern
JS would insert the replacement at every position; the build script only
ever uses the nonempty pattern produced by a placeholder token.) -/
def replaceAllL (pat rep s : List Char) : List Char :=
  replaceAllGo pat rep [] s.length s

/-- The placeholder token of a template variable key. -/
def tokenOf (key : String) : String := "\x7b\x7b" ++ key ++ "\x7d\x7d"

/-- render from build.mjs lines 113-120: fold over the entries of the
variable mapping in order, each performing a global replaceAll of the
placeholder token of the key by the value coalesced through `?? ''`. -/
def render (templateStr : String) (vars : List (String × JSVal)) : String :=
  vars.foldl
    (fun result kv =>
      ⟨replaceAllL (chars (tokenOf kv.1)) (chars (jsNullish kv.2)) result.data⟩)
    templateStr

/-- Modelled from the spec: the first mapping entry whose placeholder token
starts at the current scan position (section 4.3 describes one simultaneous
substitution pass over the template). -/
def lookupTok (vars : List (String × JSVal)) (s : List Char) : Option (String × JSVal) :=
  vars.find? (fun kv => (chars (tokenOf kv.1)).isPrefixOf s)

/-- Modelled from the spec: scanning core of the simultaneous, non-recursive
substitution described in section 4.3 (substituted content is emitted and
never re-scanned). -/
def substSpecGo (vars : List (String × JSVal)) : Nat → List Char → List Char
  | _, [] => []
  | 0, s => s
  | fuel + 1, c :: t =>
    match lookupTok vars (c :: t) with
    | some kv =>
        chars (jsNullish kv.2)
          ++ substSpecGo vars fuel ((c :: t).drop (chars (tokenOf kv.1)).length)
    | none => c :: substSpecGo vars fuel t

/-- Modelled from the spec: the template substitution contract of section
4.3 as one simultaneous global pass, for comparison with render. -/
def substSpec (vars : List (String × JSVal)) (templateStr : String) : String :=
  ⟨substSpecGo vars templateStr.data.length templateStr.data⟩

/-- Characters matched by the JavaScript regular-expression class \s and
removed by String.prototype.trim (ASCII whitespace, the line and paragraph
separators, no-break and typographic spaces, and the byte order mark). -/
def jsIsSpace (c : Char) : Bool :=
  [' ', '\t', '\n', '\r', '\x0b', '\x0c', '\u00A0', '\uFEFF', '\u1680',
    '\u2000', '\u2001', '\u2002', '\u2003', '\u2004', '\u2005', '\u2006',
    '\u2007', '\u2008', '\u2009', '\u200A', '\u2028', '\u2029', '\u202F',
    '\u205F', '\u3000'].contains c

/-- String.prototype.trim on character lists. -/
def jsTrim (l : List Char) : List Char :=
  ((l.dropWhile jsIsSpace).reverse.dropWhile jsIsSpace).reverse

/-- String.prototype.split with a single-character separator: every
occurrence of the separator starts a new piece, so n separators yield n+1
pieces. -/
def splitOnChar (c : Char) : List Char → List (List Char)
  | [] => [[]]
  | x :: xs =>
    match splitOnChar c xs with
    | [] => [[x]]
    | h :: t => if x = c then [] :: h :: t else (x :: h) :: t

/-- Length of the match of the anchored regular expression /^\d+\.\s/ on a
line, when it matches: a maximal nonempty digit run, a dot, and one
whitespace character (greedy \d+ backtracking cannot help, because a digit
is never a dot). -/
def olMatchLen (line : List Char) : Option Nat :=
  let ds := line.takeWhile Char.isDigit
  if ds.isEmpty then none
  else
    match line.drop ds.length with
    | '.' :: c :: _ => if jsIsSpace c then some (ds.length + 2) else none
    | ['.'] => none
    | _ => none

/-- Mutable state of the markdown converter loop: accumulated output and the
two mutually exclusive open-list flags. -/
structure MDState where
  html : List Char
  inOl : Bool
  inUl : Bool
deriving Repr

/-- The close() helper of renderMarkdown (build.mjs lines 61-64): emit the
closing tag of whichever list is open and clear its flag. -/
def mdClose (st : MDState) : MDState :=
  let st1 :=
    if st.inOl then { st with html := st.html ++ chars "</ol>\n", inOl := false } else st
  if st1.inUl then { st1 with html := st1.html ++ chars "</ul>\n", inUl := false } else st1

/-- The ordered-list branch, first statement (build.mjs line 79): close an
open unordered list. -/
def ulCloseStep (st : MDState) : MDState :=
  if st.inUl then { st with html := st.html ++ chars "</ul>\n", inUl := false } else st

/-- The ordered-list branch, second statement (build.mjs line 80): open the
ordered list when not already open. -/
def olOpenStep (st : MDState) : MDState :=
  if st.inOl = false then { st with html := st.html ++ chars "<ol>\n", inOl := true } else st

/-- The unordered-list branch, first statement (build.mjs line 83): close an
open ordered list. -/
def olCloseStep (st : MDState) : MDState :=
  if st.inOl then { st with html := st.html ++ chars "</ol>\n", inOl := false } else st

/-- The unordered-list branch, second statement (build.mjs line 84): open
the unordered list when not already open. -/
def ulOpenStep (st : MDState) : MDState :=
  if st.inUl = false then { st with html := st.html ++ chars "<ul>\n", inUl := true } else st

/-- One iteration of the line loop of renderMarkdown (build.mjs lines
66-93), with the exact branch priority of the source.  The escaper calls of
the source, which receive plain strings here, are written through escChars
(lemma esc_str below identifies esc on a string value with escChars). -/
def processLine (st : MDState) (line : List Char) : MDState :=
  if (chars "### ").isPrefixOf line then
    let st1 := mdClose st
    { st1 with html := st1.html ++ (chars "<h3>" ++ escChars (line.drop 4) ++ chars "</h3>\n") }
  else if (chars "## ").isPrefixOf line then
    let st1 := mdClose st
    { st1 with html := st1.html ++ (chars "<h2>" ++ escChars (line.drop 3) ++ chars "</h2>\n") }
  else if (chars "# ").isPrefixOf line then
    let st1 := mdClose st
    { st1 with html := st1.html ++ (chars "<h1>" ++ escChars (line.drop 2) ++ chars "</h1>\n") }
  else if (olMatchLen line).isSome then
    let st2 := olOpenStep (ulCloseStep st)
    { st2 with html := st2.html
        ++ (chars "  <li>" ++ escChars (line.drop ((olMatchLen line).getD 0)) ++ chars "</li>\n") }
  else if (chars "- ").isPrefixOf line then
    let st2 := ulOpenStep (olCloseStep st)
    { st2 with html := st2.html
        ++ (chars "  <li>" ++ escChars (line.drop 2) ++ chars "</li>\n") }
  else if jsTrim line = [] then
    let st1 := mdClose st
    { st1 with html := st1.html ++ chars "\n" }
  else
    let st1 := mdClose st
    { st1 with html := st1.html ++ (chars "<p>" ++ escChars line ++ chars "</p>\n") }

/-- renderMarkdown from build.mjs lines 54-96: early return on a falsy
(empty) content string, then the line loop, then a final close of any still
open list. -/
def renderMarkdown (content : String) : String :=
  if truthy (JSVal.str content) = false then ""
  else
    let lines := splitOnChar '\n' content.data
    let st := lines.foldl processLine { html := [], inOl := false, inUl := false }
    ⟨(mdClose st).html⟩

/-- JS string comparison a < b (lexicographic on code units; the modelled
strings stay in the basic plane, where code-unit and code-point order
agree).  Defined directly so that it evaluates inside kernel reduction. -/
def jsLtChars : List Char → List Char → Bool
  | [], [] => false
  | [], _ :: _ => true
  | _ :: _, [] => false
  | a :: as, b :: bs => if a < b then true else if b < a then false else jsLtChars as bs

/-- String.prototype.endsWith, on the underlying character lists. -/
def jsEndsWith (s suffixStr : String) : Bool :=
  suffixStr.data.isSuffixOf s.data

/-- Parsed frontmatter of one content file, as returned by the external
gray-matter collaborator: one modelled JS value per field the build script
reads, an absent field being undefined. -/
structure Frontmatter where
  title : JSVal := .undefined
  date : JSVal := .undefined
  author : JSVal := .undefined
  excerpt : JSVal := .undefined
  tags : JSVal := .undefined
  draft : JSVal := .undefined
deriving Repr

/-- One file of a posts directory, abstracted past the filesystem read and
the frontmatter parse: its name, parsed metadata, and body. -/
structure MDFile where
  name : String
  fm : Frontmatter
  content : String
deriving Repr

/-- A loaded post record (build.mjs lines 189-197). -/
structure Post where
  slug : String
  title : JSVal
  date : String
  author : JSVal
  excerpt : JSVal
  tags : List JSVal
  content : String
deriving Repr

/-- The slug of a file name: `file.replace(/\.md$/, '')`. -/
def stripMdExt (name : String) : String :=
  if jsEndsWith name ".md" then ⟨name.data.take (name.data.length - 3)⟩ else name

/-- The Post record built from one validated non-draft file (build.mjs lines
188-197): the date is String(fm.date).slice(0, 10), the excerpt defaults to
the empty string through `fm.excerpt || ''`, and tags default to the empty
list unless the field is an actual array. -/
def mkPost (f : MDFile) : Post :=
  { slug := stripMdExt f.name
  , title := f.fm.title
  , date := ⟨(jsToString f.fm.date).data.take 10⟩
  , author := f.fm.author
  , excerpt := if truthy f.fm.excerpt then f.fm.excerpt else .str ""
  , tags := match f.fm.tags with | .arr l => l | _ => []
  , content := f.content }

/-- The required-field validation of build.mjs lines 176-179, pushing the
missing field names in source order. -/
def missingFields (fm : Frontmatter) : List String :=
  (if truthy fm.title then [] else ["title"])
    ++ (if truthy fm.date then [] else ["date"])
    ++ (if truthy fm.author then [] else ["author"])

/-- The file loop of loadPosts (build.mjs lines 167-198): skip non-markdown
names, abort the whole build (modelled as an error value) on missing
required frontmatter, skip drafts, and collect the remaining posts in file
order. -/
def loadPostsGo (blogSlug : String) : List MDFile → Except String (List Post)
  | [] => .ok []
  | f :: rest =>
    if jsEndsWith f.name ".md" = false then loadPostsGo blogSlug rest
    else if missingFields f.fm ≠ [] then
      .error ("❌ Frontmatter必須項目不足: " ++ blogSlug ++ "/posts/" ++ f.name
        ++ " (不足: " ++ String.intercalate ", " (missingFields f.fm) ++ ")")
    else if truthy f.fm.draft then loadPostsGo blogSlug rest
    else (loadPostsGo blogSlug rest).map (fun posts => mkPost f :: posts)

/-- The sort comparator of build.mjs line 201: `(a, b) => (a.date < b.date ? 1 : -1)`. -/
def postCmp (a b : Post) : Int :=
  if jsLtChars a.date.data b.date.data then 1 else -1

/-- A stays before or at B under the comparator (the order realised by the
stable Array.prototype.sort required since ES2019). -/
def postLe (a b : Post) : Prop := postCmp a b ≤ 0

instance : DecidableRel postLe := fun a b => by unfold postLe; infer_instance

/-- loadPosts from build.mjs lines 163-202: an absent posts directory
(modelled as the none input) yields the empty list; otherwise the file loop
followed by the date-descending sort.  Array.prototype.sort is modelled by
a stable insertion sort, which agrees with any ES2019 implementation
whenever the comparator is consistent (in particular on pairwise distinct
dates). -/
def loadPosts (blogSlug : String) (postsDir : Option (List MDFile)) :
    Except String (List Post) :=
  match postsDir with
  | none => .ok []
  | some files => (loadPostsGo blogSlug files).map (List.insertionSort postLe)

/-- The tag badge markup shared by the fragment builders: one span per tag,
class name as in the corresponding source branch, joined with the empty
separator (`tags.map(t => ...).join('')`). -/
def tagSpanList (clsName : String) (tags : List JSVal) : String :=
  String.join (tags.map (fun t =>
    "<span class=\"" ++ clsName ++ "\">#" ++ esc t ++ "</span>"))

/-- A filter button of buildTagFilterHtml: `<button data-tag-btn="...">`. -/
def tagButton (clsName : String) (t : JSVal) : String :=
  "<button data-tag-btn=\"" ++ esc t ++ "\" class=\"" ++ clsName ++ "\">#" ++ esc t
    ++ "</button>"

/-- The prev/next navigation card markup shared by the ten named theme
branches of buildNavCard, parameterised by the theme class prefix; every
branch of the source emits exactly this shape. -/
def navCard (p : String) (post : Post) (label : String) : String :=
  "<a href=\"" ++ esc (.str post.slug) ++ ".html\" class=\"" ++ p ++ "-nav-card\">\n  <div class=\""
    ++ p ++ "-nav-label\">" ++ esc (.str label) ++ "</div>\n  <div class=\""
    ++ p ++ "-nav-title\">" ++ esc post.title ++ "</div>\n  <div class=\""
    ++ p ++ "-nav-date\">" ++ esc (.str post.date) ++ "</div>\n</a>"

/-- buildPostListHtml from build.mjs lines 209-365: placeholder paragraph for
an empty post list, else one card per post (dispatching on the theme, any
unknown theme taking the final word-retro branch), joined with newlines. -/
def buildPostListHtml (posts : List Post) (blogSlug theme : String) : String :=
  if posts.length = 0 then
    "<p style=\"color:#999;padding:20px 0\">記事がまだありません</p>"
  else
    String.intercalate "\n" (posts.map (fun post =>
      let tags := String.intercalate "," (jsJoinParts post.tags)
      if theme = "retro-cosmic" then
        "<a href=\"posts/" ++ esc (.str post.slug) ++ ".html\" class=\"cosmic-post-card\" data-post-tags=\"" ++ esc (.str tags)
          ++ "\">\n  <div style=\"display:flex;justify-content:space-between;align-items:start;margin-bottom:6px\">\n    <div class=\"cosmic-card-title\">"
          ++ esc post.title
          ++ "</div>\n    <span style=\"font-size:0.85rem;color:#666;white-space:nowrap;margin-left:12px\">📅 "
          ++ esc (.str post.date)
          ++ "</span>\n  </div>\n  <p class=\"cosmic-card-excerpt\">" ++ esc post.excerpt
          ++ "</p>\n  <div style=\"display:flex;justify-content:space-between;align-items:center;margin-top:8px\">\n    <span class=\"cosmic-card-meta\">✍️ "
          ++ esc post.author ++ "</span>\n    <div>" ++ tagSpanList "cosmic-tag" post.tags
          ++ "</div>\n  </div>\n</a>"
      else if theme = "gym-log" then
        "<a href=\"posts/" ++ esc (.str post.slug) ++ ".html\" class=\"gym-post-card\" data-post-tags=\"" ++ esc (.str tags)
          ++ "\">\n  <div style=\"display:flex;justify-content:space-between;align-items:start;margin-bottom:6px\">\n    <div class=\"gym-card-title\">"
          ++ esc post.title ++ "</div>\n    <span class=\"gym-card-date\">📅 " ++ esc (.str post.date)
          ++ "</span>\n  </div>\n  <p class=\"gym-card-excerpt\">" ++ esc post.excerpt
          ++ "</p>\n  <div style=\"display:flex;justify-content:space-between;align-items:center;margin-top:8px\">\n    <span class=\"gym-card-meta\">✍️ "
          ++ esc post.author ++ "</span>\n    <div>" ++ tagSpanList "gym-tag" post.tags
          ++ "</div>\n  </div>\n</a>"
      else if theme = "love-column" then
        "<a href=\"posts/" ++ esc (.str post.slug) ++ ".html\" class=\"love-post-card\" data-post-tags=\"" ++ esc (.str tags)
          ++ "\">\n  <div style=\"display:flex;justify-content:space-between;align-items:start;margin-bottom:6px\">\n    <div class=\"love-card-title\">"
          ++ esc post.title ++ "</div>\n    <span class=\"love-card-date\">📅 " ++ esc (.str post.date)
          ++ "</span>\n  </div>\n  <p class=\"love-card-excerpt\">" ++ esc post.excerpt
          ++ "</p>\n  <div style=\"display:flex;justify-content:space-between;align-items:center;margin-top:8px\">\n    <span class=\"love-card-meta\">✍️ "
          ++ esc post.author ++ "</span>\n    <div>" ++ tagSpanList "love-tag" post.tags
          ++ "</div>\n  </div>\n</a>"
      else if theme = "izakaya" then
        "<a href=\"posts/" ++ esc (.str post.slug) ++ ".html\" class=\"izakaya-post-card\" data-post-tags=\"" ++ esc (.str tags)
          ++ "\">\n  <div style=\"display:flex;justify-content:space-between;align-items:start;margin-bottom:6px\">\n    <div class=\"izakaya-card-title\">"
          ++ esc post.title ++ "</div>\n    <span class=\"izakaya-card-date\">📅 " ++ esc (.str post.date)
          ++ "</span>\n  </div>\n  <p class=\"izakaya-card-excerpt\">" ++ esc post.excerpt
          ++ "</p>\n  <div style=\"display:flex;justify-content:space-between;align-items:center;margin-top:8px\">\n    <span class=\"izakaya-card-meta\">✍️ "
          ++ esc post.author ++ "</span>\n    <div>" ++ tagSpanList "izakaya-tag" post.tags
          ++ "</div>\n  </div>\n</a>"
      else if theme = "onsen-cosmos" then
        "<a href=\"posts/" ++ esc (.str post.slug) ++ ".html\" class=\"onsen-post-card\" data-post-tags=\"" ++ esc (.str tags)
          ++ "\">\n  <div style=\"display:flex;justify-content:space-between;align-items:start;margin-bottom:6px\">\n    <div class=\"onsen-card-title\">"
          ++ esc post.title ++ "</div>\n    <span class=\"onsen-card-date\">🌙 " ++ esc (.str post.date)
          ++ "</span>\n  </div>\n  <p class=\"onsen-card-excerpt\">" ++ esc post.excerpt
          ++ "</p>\n  <div style=\"display:flex;justify-content:space-between;align-items:center;margin-top:8px\">\n    <span class=\"onsen-card-meta\">✍️ "
          ++ esc post.author ++ "</span>\n    <div>" ++ tagSpanList "onsen-tag" post.tags
          ++ "</div>\n  </div>\n</a>"
      else if theme = "comedy-zine" then
        "<a href=\"posts/" ++ esc (.str post.slug) ++ ".html\" class=\"zine-post-card\" data-post-tags=\"" ++ esc (.str tags)
          ++ "\">\n  <div style=\"display:flex;justify-content:space-between;align-items:start;margin-bottom:6px\">\n    <div class=\"zine-card-title\">"
          ++ esc post.title ++ "</div>\n    <span class=\"zine-card-date\">" ++ esc (.str post.date)
          ++ "</span>\n  </div>\n  <p class=\"zine-card-excerpt\">" ++ esc post.excerpt
          ++ "</p>\n  <div style=\"display:flex;justify-content:space-between;align-items:center;margin-top:8px\">\n    <span class=\"zine-card-meta\">✍️ "
          ++ esc post.author ++ "</span>\n    <div>" ++ tagSpanList "zine-tag" post.tags
          ++ "</div>\n  </div>\n</a>"
      else if theme = "academy-log" then
        "<a href=\"posts/" ++ esc (.str post.slug) ++ ".html\" class=\"academy-post-card\" data-post-tags=\"" ++ esc (.str tags)
          ++ "\">\n  <div style=\"display:flex;justify-content:space-between;align-items:start;margin-bottom:6px\">\n    <div class=\"academy-card-title\">"
          ++ esc post.title ++ "</div>\n    <span class=\"academy-card-date\">📅 " ++ esc (.str post.date)
          ++ "</span>\n  </div>\n  <p class=\"academy-card-excerpt\">" ++ esc post.excerpt
          ++ "</p>\n  <div style=\"display:flex;justify-content:space-between;align-items:center;margin-top:8px\">\n    <span class=\"academy-card-meta\">✍️ "
          ++ esc post.author ++ "</span>\n    <div>" ++ tagSpanList "academy-tag" post.tags
          ++ "</div>\n  </div>\n</a>"
      else if theme = "terminal" then
        "<a href=\"posts/" ++ esc (.str post.slug) ++ ".html\" class=\"term-post-entry\" data-post-tags=\"" ++ esc (.str tags)
          ++ "\">\n  <span class=\"term-post-date\">" ++ esc (.str post.date)
          ++ "</span>\n  <span class=\"term-post-author\">" ++ esc post.author
          ++ "</span>\n  <span class=\"term-post-title\">" ++ esc post.title
          ++ "</span>\n  <div class=\"term-post-excerpt\">" ++ esc post.excerpt
          ++ "</div>\n  <div class=\"term-post-tags\">" ++ tagSpanList "term-tag" post.tags
          ++ "</div>\n</a>"
      else if theme = "kawase-blog" then
        "<a href=\"posts/" ++ esc (.str post.slug) ++ ".html\" class=\"kawase-post-card\" data-post-tags=\"" ++ esc (.str tags)
          ++ "\">\n  <div class=\"kawase-card-date\">📅 " ++ esc (.str post.date)
          ++ "</div>\n  <div class=\"kawase-card-title\">" ++ esc post.title
          ++ "</div>\n  <p class=\"kawase-card-excerpt\">" ++ esc post.excerpt
          ++ "</p>\n  <div class=\"kawase-card-footer\">\n    <span class=\"kawase-card-meta\">✍️ "
          ++ esc post.author ++ "</span>\n    <div class=\"kawase-card-tags\">"
          ++ tagSpanList "kawase-tag" post.tags ++ "</div>\n  </div>\n</a>"
      else if theme = "sake-modern" then
        "<a href=\"posts/" ++ esc (.str post.slug) ++ ".html\" class=\"sake-post-card\" data-post-tags=\"" ++ esc (.str tags)
          ++ "\">\n  <div class=\"sake-card-date\">📅 " ++ esc (.str post.date)
          ++ "</div>\n  <div class=\"sake-card-title\">" ++ esc post.title
          ++ "</div>\n  <p class=\"sake-card-excerpt\">" ++ esc post.excerpt
          ++ "</p>\n  <div class=\"sake-card-footer\">\n    <span class=\"sake-card-meta\">✍️ "
          ++ esc post.author ++ "</span>\n    <div class=\"sake-card-tags\">"
          ++ tagSpanList "sake-tag" post.tags ++ "</div>\n  </div>\n</a>"
      else
        "<a href=\"posts/" ++ esc (.str post.slug) ++ ".html\" class=\"word-blog-entry\" data-post-tags=\"" ++ esc (.str tags)
          ++ "\">\n  <div style=\"display:flex;justify-content:space-between;align-items:start;margin-bottom:6px\">\n    <div class=\"word-blog-entry-title\">"
          ++ esc post.title
          ++ "</div>\n    <span style=\"font-size:0.85rem;color:#666;white-space:nowrap;margin-left:12px\">📅 "
          ++ esc (.str post.date)
          ++ "</span>\n  </div>\n  <p class=\"word-blog-excerpt\" style=\"margin-bottom:8px\">" ++ esc post.excerpt
          ++ "</p>\n  <div style=\"display:flex;justify-content:space-between;align-items:center;flex-wrap:wrap;gap:8px\">\n    <span style=\"font-size:0.85rem;color:#666\">✍️ "
          ++ esc post.author ++ "</span>\n    <div>" ++ tagSpanList "word-tag" post.tags
          ++ "</div>\n  </div>\n</a>"))

/-- First-seen-order deduplication loop behind the Set-based tag collection
(`[...new Set(...)]`): insertion order with later structural duplicates
dropped (faithful for primitive tag values). -/
def dedupFirstGo (seen : List JSVal) : List JSVal → List JSVal
  | [] => []
  | x :: t =>
    if seen.contains x then dedupFirstGo seen t else x :: dedupFirstGo (x :: seen) t

/-- Deduplicated first-seen-order tag list of buildTagFilterHtml line 369. -/
def dedupFirst (l : List JSVal) : List JSVal := dedupFirstGo [] l

/-- buildTagFilterHtml from build.mjs lines 368-462: empty output when the
posts carry no tags at all, else the per-theme filter panel with one
show-all button followed by one button per distinct tag. -/
def buildTagFilterHtml (posts : List Post) (theme : String) : String :=
  let allTags := dedupFirst (posts.flatMap Post.tags)
  if allTags.length = 0 then ""
  else if theme = "retro-cosmic" then
    let allBtn := "<button data-tag-btn=\"__all__\" class=\"cosmic-tag cosmic-tag-active\">すべて</button>"
    let tagBtns := String.join (allTags.map (tagButton "cosmic-tag"))
    "<div class=\"cosmic-tag-filter\">\n  <div class=\"cosmic-tag-filter-heading\">🏷️ タグで絞り込み</div>\n  <div style=\"display:flex;gap:6px;flex-wrap:wrap\">"
      ++ allBtn ++ tagBtns ++ "</div>\n</div>\n<div class=\"retro-separator\"></div>"
  else if theme = "gym-log" then
    let allBtn := "<button data-tag-btn=\"__all__\" class=\"gym-tag\" style=\"border-color:#ff4400;color:#ff4400\">ALL</button>"
    let tagBtns := String.join (allTags.map (tagButton "gym-tag"))
    "<div class=\"gym-tag-filter\">\n  <div class=\"gym-tag-filter-heading\">◆ FILTER BY TAG</div>\n  <div style=\"display:flex;gap:6px;flex-wrap:wrap\">"
      ++ allBtn ++ tagBtns ++ "</div>\n</div>"
  else if theme = "love-column" then
    let allBtn := "<button data-tag-btn=\"__all__\" class=\"love-tag\" style=\"background:#ff8fab;border-color:#ff8fab;color:white\">すべて ♥</button>"
    let tagBtns := String.join (allTags.map (tagButton "love-tag"))
    "<div class=\"love-tag-filter\">\n  <div class=\"love-tag-filter-heading\">♥ タグで絞り込み</div>\n  <div style=\"display:flex;gap:6px;flex-wrap:wrap;justify-content:center\">"
      ++ allBtn ++ tagBtns ++ "</div>\n</div>"
  else if theme = "izakaya" then
    let allBtn := "<button data-tag-btn=\"__all__\" class=\"izakaya-tag\" style=\"border-color:#d4a058;color:#f0b830\">すべて</button>"
    let tagBtns := String.join (allTags.map (tagButton "izakaya-tag"))
    "<div class=\"izakaya-tag-filter\">\n  <div class=\"izakaya-tag-filter-heading\">〔 種類で絞り込む 〕</div>\n  <div style=\"display:flex;gap:6px;flex-wrap:wrap\">"
      ++ allBtn ++ tagBtns ++ "</div>\n</div>"
  else if theme = "onsen-cosmos" then
    let allBtn := "<button data-tag-btn=\"__all__\" class=\"onsen-tag\" style=\"border-color:#c8a060;color:#f0d090\">すべて ✦</button>"
    let tagBtns := String.join (allTags.map (tagButton "onsen-tag"))
    "<div class=\"onsen-tag-filter\">\n  <div class=\"onsen-tag-filter-heading\">✦ タグで絞り込み</div>\n  <div style=\"display:flex;gap:6px;flex-wrap:wrap;justify-content:center\">"
      ++ allBtn ++ tagBtns ++ "</div>\n</div>"
  else if theme = "comedy-zine" then
    let allBtn := "<button data-tag-btn=\"__all__\" class=\"zine-tag\" style=\"background:#111;color:#ffe600;border-color:#111\">ALL</button>"
    let tagBtns := String.join (allTags.map (tagButton "zine-tag"))
    "<div class=\"zine-tag-filter\">\n  <div class=\"zine-tag-filter-heading\">◆ FILTER BY TAG</div>\n  <div style=\"display:flex;gap:6px;flex-wrap:wrap\">"
      ++ allBtn ++ tagBtns ++ "</div>\n</div>"
  else if theme = "academy-log" then
    let allBtn := "<button data-tag-btn=\"__all__\" class=\"academy-tag\" style=\"border-color:#4a9eff;color:#7ac8ff\">ALL</button>"
    let tagBtns := String.join (allTags.map (tagButton "academy-tag"))
    "<div class=\"academy-tag-filter\">\n  <div class=\"academy-tag-filter-heading\">◆ FILTER BY TAG</div>\n  <div style=\"display:flex;gap:6px;flex-wrap:wrap\">"
      ++ allBtn ++ tagBtns ++ "</div>\n</div>"
  else if theme = "terminal" then
    let allBtn := "<button data-tag-btn=\"__all__\" class=\"term-tag term-tag-active\">*</button>"
    let tagBtns := String.join (allTags.map (tagButton "term-tag"))
    "<div class=\"term-tag-filter term-block\" style=\"padding:10px\">\n  <span class=\"term-prompt-mini\">$</span> grep --tag:\n  <div style=\"display:flex;gap:6px;flex-wrap:wrap;margin-top:8px\">"
      ++ allBtn ++ tagBtns ++ "</div>\n</div>"
  else if theme = "kawase-blog" then
    let allBtn := "<button data-tag-btn=\"__all__\" class=\"kawase-tag kawase-tag-active\">すべて</button>"
    let tagBtns := String.join (allTags.map (tagButton "kawase-tag"))
    "<div class=\"kawase-tag-filter\">\n  <div class=\"kawase-tag-filter-heading\">✦ タグで絞り込み</div>\n  <div class=\"kawase-tag-filter-wrap\">"
      ++ allBtn ++ tagBtns ++ "</div>\n</div>"
  else if theme = "sake-modern" then
    let allBtn := "<button data-tag-btn=\"__all__\" class=\"sake-tag sake-tag-active\">すべて</button>"
    let tagBtns := String.join (allTags.map (tagButton "sake-tag"))
    "<div class=\"sake-tag-filter\">\n  <div class=\"sake-tag-filter-heading\">✦ タグで絞り込み</div>\n  <div class=\"sake-tag-filter-wrap\">"
      ++ allBtn ++ tagBtns ++ "</div>\n</div>"
  else
    let allBtn := "<button data-tag-btn=\"__all__\" class=\"word-tag word-tag-active\">すべて</button>"
    let tagBtns := String.join (allTags.map (tagButton "word-tag"))
    "<div class=\"word-section\">\n  <div class=\"word-section-heading\">🏷️ タグで絞り込み</div>\n  <div style=\"display:flex;gap:6px;flex-wrap:wrap\">"
      ++ allBtn ++ tagBtns ++ "</div>\n</div>\n<div class=\"word-section-break\"></div>"

/-- buildNavCard from build.mjs lines 465-535: empty placeholder element for
an absent neighbour post, else the per-theme link card (every named theme
emitting the navCard shape with its class prefix, the default word-retro
branch its own inline-styled card). -/
def buildNavCard (post : Option Post) (label blogSlug theme : String) : String :=
  match post with
  | none => "<div></div>"
  | some post =>
    if theme = "retro-cosmic" then navCard "cosmic" post label
    else if theme = "gym-log" then navCard "gym" post label
    else if theme = "love-column" then navCard "love" post label
    else if theme = "izakaya" then navCard "izakaya" post label
    else if theme = "onsen-cosmos" then navCard "onsen" post label
    else if theme = "comedy-zine" then navCard "zine" post label
    else if theme = "academy-log" then navCard "academy" post label
    else if theme = "terminal" then navCard "term" post label
    else if theme = "kawase-blog" then navCard "kawase" post label
    else if theme = "sake-modern" then navCard "sake" post label
    else
      "<a href=\"" ++ esc (.str post.slug)
        ++ ".html\" class=\"word-blog-card\" style=\"padding:12px\">\n  <div style=\"font-size:0.8rem;color:#666;margin-bottom:6px\">"
        ++ esc (.str label)
        ++ "</div>\n  <div class=\"word-bold word-text-blue\" style=\"font-size:0.9rem\">"
        ++ esc post.title
        ++ "</div>\n  <div style=\"font-size:0.8rem;color:#666;margin-top:4px\">"
        ++ esc (.str post.date) ++ "</div>\n</a>"

/-- buildTagsHtml from build.mjs lines 538-563: empty string for an empty
tag list (the falsy guard of the source never fires for an actual array),
else one badge per tag with the theme class, in the branch order of the
source. -/
def buildTagsHtml (tags : List JSVal) (theme : String) : String :=
  if tags.length = 0 then ""
  else if theme = "retro-cosmic" then tagSpanList "cosmic-tag" tags
  else if theme = "terminal" then tagSpanList "term-tag" tags
  else if theme = "gym-log" then tagSpanList "gym-tag" tags
  else if theme = "love-column" then tagSpanList "love-tag" tags
  else if theme = "izakaya" then tagSpanList "izakaya-tag" tags
  else if theme = "onsen-cosmos" then tagSpanList "onsen-tag" tags
  else if theme = "comedy-zine" then tagSpanList "zine-tag" tags
  else if theme = "academy-log" then tagSpanList "academy-tag" tags
  else if theme = "kawase-blog" then tagSpanList "kawase-tag" tags
  else if theme = "sake-modern" then tagSpanList "sake-tag" tags
  else tagSpanList "word-tag" tags

/-- A filter button of the client page: its class list and its data-tag-btn
attribute (docs/assets/js/tag-filter.js). -/
structure TFButton where
  classes : List String
  tagBtn : String
deriving Repr, DecidableEq

/-- A post card of the client page: its data-post-tags attribute and its
current inline display style. -/
structure TFCard where
  postTags : String
  display : String
deriving Repr, DecidableEq

/-- classList.remove of the three active classes managed by the click
handler (tag-filter.js line 19). -/
def stripActive (b : TFButton) : TFButton :=
  { b with classes := b.classes.filter (fun c =>
      !(c == "word-tag-active" || c == "cosmic-tag-active" || c == "term-tag-active")) }

/-- The active class chosen for the clicked button (tag-filter.js lines
21-25): cosmic for a cosmic-tag button, term for a term-tag button, word
otherwise. -/
def chooseActive (b : TFButton) : String :=
  if b.classes.contains "cosmic-tag" then "cosmic-tag-active"
  else if b.classes.contains "term-tag" then "term-tag-active"
  else "word-tag-active"

/-- classList.add of one class: appended unless already present. -/
def addClass (b : TFButton) (cls : String) : TFButton :=
  if b.classes.contains cls then b else { b with classes := b.classes ++ [cls] }

/-- The comma-split tag list of a card, `(attr || '').split(',')`. -/
def cardTagList (card : TFCard) : List String :=
  (splitOnChar ',' card.postTags.data).map (fun l => (⟨l⟩ : String))

/-- One click on filter button i (tag-filter.js lines 13-37): strip the
three managed active classes from every button, add the chosen one to the
clicked button, and show exactly the cards whose tag list contains the
selected tag (or all of them for the sentinel value).  A click on a missing
index never happens in the browser and leaves the state unchanged here. -/
def tagFilterClick (buttons : List TFButton) (cards : List TFCard) (i : Nat) :
    List TFButton × List TFCard :=
  match buttons[i]? with
  | none => (buttons, cards)
  | some clicked =>
    let selectedTag := clicked.tagBtn
    let clicked1 := stripActive clicked
    let buttons2 := (buttons.map stripActive).set i (addClass clicked1 (chooseActive clicked1))
    let cards2 := cards.map (fun card =>
      if selectedTag = "__all__" ∨ (cardTagList card).contains selectedTag then
        { card with display := "" }
      else
        { card with display := "none" })
    (buttons2, cards2)

/-- The ten theme identifiers with a dedicated branch in the fragment
builders; every other identifier reaches the final (word-retro) branch. -/
def namedThemes : List String :=
  ["retro-cosmic", "gym-log", "love-column", "izakaya", "onsen-cosmos",
    "comedy-zine", "academy-log", "terminal", "kawase-blog", "sake-modern"]

/-- Substring-occurrence count: the number of start positions at which pat
occurs in the text (the notion used by the list balance invariant). -/
def countOcc (pat : List Char) : List Char → Nat
  | [] => 0
  | c :: t => (if pat.isPrefixOf (c :: t) then 1 else 0) + countOcc pat t

/-! ### Escaper lemmas -/

theorem replaceCharL_append (c : Char) (rep l1 l2 : List Char) :
    replaceCharL c rep (l1 ++ l2) = replaceCharL c rep l1 ++ replaceCharL c rep l2 := by
  induction l1 with
  | nil => rfl
  | cons x xs ih => simp [replaceCharL, ih]

theorem escChars_append (l1 l2 : List Char) :
    escChars (l1 ++ l2) = escChars l1 ++ escChars l2 := by
  simp [escChars, replaceCharL_append]

theorem escChars_single (c : Char) : escChars [c] = escEntity c := by
  by_cases h1 : c = '&'
  · subst h1; decide
  by_cases h2 : c = '<'
  · subst h2; decide
  by_cases h3 : c = '>'
  · subst h3; decide
  by_cases h4 : c = '"'
  · subst h4; decide
  simp [escChars, replaceCharL, escEntity, h1, h2, h3, h4]

theorem escChars_flatMap (l : List Char) : escChars l = l.flatMap escEntity := by
  induction l with
  | nil => rfl
  | cons c t ih =>
      rw [show (c :: t : List Char) = [c] ++ t from rfl, escChars_append, escChars_single, ih]
      simp

theorem escString_flatMap (s : String) : escString s = ⟨s.data.flatMap escEntity⟩ := by
  simp [escString, escChars_flatMap]

/-- Characters other than the ampersand that appear in some entity
replacement never include the angle brackets or the quote; in particular the
escaped text contains no literal opening angle bracket (needed by the list
balance argument). -/
theorem escChars_no_lt (l : List Char) : '<' ∉ escChars l := by
  rw [escChars_flatMap]
  intro hmem
  rcases List.mem_flatMap.mp hmem with ⟨c, _, hc⟩
  by_cases h1 : c = '&'
  · subst h1; exact absurd hc (by decide)
  by_cases h2 : c = '<'
  · subst h2; exact absurd hc (by decide)
  by_cases h3 : c = '>'
  · subst h3; exact absurd hc (by decide)
  by_cases h4 : c = '"'
  · subst h4; exact absurd hc (by decide)
  simp [escEntity, h1, h2, h3, h4] at hc
  exact h2 hc.symm

/-- The escaper on an actual string value is exactly the chained character
replacement (the falsy early return coincides with escaping for the empty
string). -/
theorem esc_str (s : String) : esc (.str s) = escString s := by
  by_cases h : s = ""
  · subst h; rfl
  · simp [esc, truthy, isNumZero, jsToString, h]

/-- C1 counterexample: the boolean false is neither null nor undefined, yet
the escaper maps it to the empty string (the early return fires on every
falsy value other than the number zero), while escaping its string form
would give a nonempty string. -/
theorem esc_false_not_null_cex :
    esc (JSVal.bool false) = ""
      ∧ JSVal.bool false ≠ JSVal.null
      ∧ JSVal.bool false ≠ JSVal.undefined
      ∧ escString (jsToString (JSVal.bool false)) ≠ "" := by
  refine ⟨rfl, fun h => JSVal.noConfusion h, fun h => JSVal.noConfusion h, by decide⟩

/-- C1 (amended): every string input has each occurrence of the four
HTML-sensitive characters replaced by its entity equivalent in one
effective pass (ampersand first, so no entity is double-escaped), null and
undefined map to the empty string, and the number zero maps to the escaped
string zero; but the empty-string early return also fires on the other
falsy inputs (false, the empty string), not only on null and undefined. -/
theorem esc_spec_amended :
    (∀ s : String, escString s = ⟨s.data.flatMap escEntity⟩)
      ∧ esc JSVal.null = "" ∧ esc JSVal.undefined = ""
      ∧ esc (JSVal.num 0) = "0"
      ∧ esc (JSVal.bool false) = "" ∧ esc (JSVal.str "") = "" := by
  exact ⟨escString_flatMap, rfl, rfl, by decide, rfl, rfl⟩

/-- C9: escaping is not idempotent; a string containing an HTML-sensitive
character (here a lone ampersand) changes again when escaped a second time,
because the ampersand of the entity is itself escaped. -/
theorem esc_not_idempotent :
    ∃ s : String,
      ('&' ∈ s.data ∨ '<' ∈ s.data ∨ '>' ∈ s.data ∨ '"' ∈ s.data)
        ∧ esc (.str (esc (.str s))) ≠ esc (.str s) := by
  exact ⟨"&", by decide, by decide⟩

/-! ### Post loader claims -/

/-- C10: a missing posts directory yields the empty post list, not an
error, so a blog without a content directory renders with zero posts. -/
theorem loadPosts_missing_dir_empty (blogSlug : String) :
    loadPosts blogSlug none = .ok [] := rfl

/-- C3 counterexample: an item with a truthy draft flag whose author field
is missing aborts the loader with the missing-field message (the required
field validation of lines 176-183 runs before the draft check of line 186),
so a draft is not excluded silently regardless of the validity of its other
fields. -/
theorem loadPosts_draft_missing_author_cex :
    loadPosts "b" (some
        [{ name := "x.md"
         , fm := { title := .str "T", date := .str "2024-01-01", draft := .bool true }
         , content := "" }])
      = .error "❌ Frontmatter必須項目不足: b/posts/x.md (不足: author)" := rfl

/-- C3 (amended): an item with a truthy draft flag whose required fields
title, date and author are all present is silently excluded from the loaded
result without an error; a draft missing a required field still aborts,
because validation precedes the draft check. -/
theorem loadPosts_draft_skipped (blogSlug : String) (f : MDFile) (rest : List MDFile)
    (hdraft : truthy f.fm.draft = true) (hfields : missingFields f.fm = []) :
    loadPosts blogSlug (some (f :: rest)) = loadPosts blogSlug (some rest) := by
  by_cases hmd : jsEndsWith f.name ".md" = false
  · simp [loadPosts, loadPostsGo, hmd]
  · simp [loadPosts, loadPostsGo, hmd, hfields, hdraft]

/-- Concrete draft file with all required fields present, for the C3
witness. -/
def draftFileC3 : MDFile :=
  { name := "draft.md"
  , fm := { title := .str "T", date := .str "2024-05-01", author := .str "A"
          , draft := .bool true }
  , content := "body" }

/-- Concrete non-draft file, for the C3 witness. -/
def okFileC3 : MDFile :=
  { name := "keep.md"
  , fm := { title := .str "U", date := .str "2024-04-01", author := .str "B" }
  , content := "body2" }

/-- C3 witness: at a concrete draft item with valid fields, the loader
result is the same as without the item. -/
theorem loadPosts_draft_skipped_witness :
    truthy draftFileC3.fm.draft = true
      ∧ missingFields draftFileC3.fm = []
      ∧ loadPosts "b" (some [draftFileC3, okFileC3]) = loadPosts "b" (some [okFileC3]) :=
  ⟨rfl, rfl, loadPosts_draft_skipped "b" draftFileC3 [okFileC3] rfl rfl⟩

/-! ### Template substitution claims -/

theorem getSubstitution_no_dollar (matched before after : List Char)
    {rep : List Char} (h : '$' ∉ rep) :
    getSubstitution matched before after rep = rep := by
  induction rep with
  | nil => rfl
  | cons c t ih =>
      have hc : ¬ c = '$' := fun hh => h (hh ▸ List.mem_cons_self c t)
      have ht : '$' ∉ t := fun hh => h (List.mem_cons_of_mem c hh)
      cases t with
      | nil => simp [getSubstitution, hc]
      | cons d t2 => simp [getSubstitution, hc, ih ht]

/-- The character list of a placeholder token: two opening braces, the key,
two closing braces. -/
theorem chars_tokenOf (k : String) :
    chars (tokenOf k) = '\x7b' :: '\x7b' :: (k.data ++ ['\x7d', '\x7d']) := rfl

theorem chars_tokenOf_ne_nil (k : String) : chars (tokenOf k) ≠ [] := by
  rw [chars_tokenOf]; exact List.cons_ne_nil _ _

/-- On a single-entry mapping the spec-side token lookup is prefix testing
of that one token. -/
theorem lookupTok_single (k : String) (v : JSVal) (s : List Char) :
    lookupTok [(k, v)] s
      = if (chars (tokenOf k)).isPrefixOf s then some (k, v) else none := by
  by_cases hp : (chars (tokenOf k)).isPrefixOf s <;> simp [lookupTok, List.find?, hp]

/-- The replaceAll scan of one placeholder token agrees step by step with
the simultaneous substitution scan of the corresponding single-entry
mapping, whenever the replacement string carries no dollar escape. -/
theorem renderGo_single (k : String) (v : JSVal) (hd : '$' ∉ chars (jsNullish v)) :
    ∀ (fuel : Nat) (s before : List Char),
      replaceAllGo (chars (tokenOf k)) (chars (jsNullish v)) before fuel s
        = substSpecGo [(k, v)] fuel s := by
  intro fuel
  induction fuel with
  | zero => intro s before; cases s <;> rfl
  | succ n ih =>
      intro s before
      cases s with
      | nil => rfl
      | cons c t =>
          by_cases hp : (chars (tokenOf k)).isPrefixOf (c :: t)
          · have hcond : (chars (tokenOf k)).isPrefixOf (c :: t) = true
                ∧ chars (tokenOf k) ≠ [] := ⟨hp, chars_tokenOf_ne_nil k⟩
            simp only [replaceAllGo, substSpecGo, lookupTok_single, if_pos hcond, if_pos hp]
            rw [getSubstitution_no_dollar _ _ _ hd, ih]
          · have hcond : ¬ ((chars (tokenOf k)).isPrefixOf (c :: t) = true
                ∧ chars (tokenOf k) ≠ []) := fun hc => hp hc.1
            simp only [replaceAllGo, substSpecGo, lookupTok_single, if_neg hcond, if_neg hp]
            rw [ih]

/-- C4 counterexample: with the template being the placeholder of A, the
value of A containing the placeholder of B, and B also a key of the
mapping, render produces the value of B: the text substituted for A is
re-scanned by the later pass for B, so the B token does not remain
untouched as the claim states. -/
theorem render_rescans_later_key_cex :
    render "\x7b\x7bA\x7d\x7d"
        [("A", JSVal.str "\x7b\x7bB\x7d\x7d"), ("B", JSVal.str "x")] = "x"
      ∧ ("x" : String) ≠ "\x7b\x7bB\x7d\x7d" :=
  ⟨rfl, by decide⟩

/-- C4 (amended): render is non-recursive only within each single key's
pass: for every template string and every mapping whose value strings carry
no dollar escape, render equals the sequential composition, in mapping
order, of the one-pass non-recursive single-key substitutions of the
specification — each pass emits substituted text without ever re-scanning
it, and a completed key is never searched for again, so substituted text is
never re-scanned for the placeholder of the same key or of any earlier key;
a placeholder of a later key introduced by a replacement is, however,
replaced by that later pass (the counterexample), while a replacement value
containing the placeholder token of an earlier key leaves that token
untouched in the output (second conjunct). -/
theorem render_no_rescan_same_or_earlier :
    (∀ (templateStr : String) (vars : List (String × JSVal)),
        (∀ kv ∈ vars, '$' ∉ chars (jsNullish kv.2)) →
          render templateStr vars
            = vars.foldl (fun r kv => substSpec [kv] r) templateStr)
      ∧ (∀ v : String,
          render "\x7b\x7bA\x7d\x7d"
              [("B", JSVal.str v), ("A", JSVal.str "\x7b\x7bB\x7d\x7d")]
            = "\x7b\x7bB\x7d\x7d") := by
  refine ⟨?_, fun v => rfl⟩
  intro templateStr vars
  induction vars generalizing templateStr with
  | nil => intro _; rfl
  | cons kv rest ih =>
      intro hd
      have h1 : '$' ∉ chars (jsNullish kv.2) := hd kv (List.mem_cons_self kv rest)
      have hstep :
          (⟨replaceAllL (chars (tokenOf kv.1)) (chars (jsNullish kv.2))
              templateStr.data⟩ : String)
            = substSpec [kv] templateStr :=
        congrArg String.mk
          (renderGo_single kv.1 kv.2 h1 templateStr.data.length templateStr.data [])
      calc render templateStr (kv :: rest)
          = render (⟨replaceAllL (chars (tokenOf kv.1)) (chars (jsNullish kv.2))
              templateStr.data⟩) rest := rfl
        _ = render (substSpec [kv] templateStr) rest := by rw [hstep]
        _ = rest.foldl (fun r kv => substSpec [kv] r) (substSpec [kv] templateStr) :=
            ih (substSpec [kv] templateStr)
              (fun kv2 h2 => hd kv2 (List.mem_cons_of_mem kv h2))
        _ = (kv :: rest).foldl (fun r kv => substSpec [kv] r) templateStr := rfl

/-- C4 witness: the universal single-pass characterisation at a concrete
two-key mapping whose passes both fire: B first rewrites the B placeholder,
then A rewrites the A placeholder to a fresh B token that no pass revisits. -/
theorem render_no_rescan_same_or_earlier_witness :
    (∀ kv ∈ ([("B", JSVal.str "w"), ("A", JSVal.str "\x7b\x7bB\x7d\x7d")]
        : List (String × JSVal)), '$' ∉ chars (jsNullish kv.2))
      ∧ render "\x7b\x7bA\x7d\x7d\x7b\x7bB\x7d\x7d"
            [("B", JSVal.str "w"), ("A", JSVal.str "\x7b\x7bB\x7d\x7d")]
          = ([("B", JSVal.str "w"), ("A", JSVal.str "\x7b\x7bB\x7d\x7d")]
              : List (String × JSVal)).foldl (fun r kv => substSpec [kv] r)
              "\x7b\x7bA\x7d\x7d\x7b\x7bB\x7d\x7d"
      ∧ render "\x7b\x7bA\x7d\x7d\x7b\x7bB\x7d\x7d"
            [("B", JSVal.str "w"), ("A", JSVal.str "\x7b\x7bB\x7d\x7d")]
          = "\x7b\x7bB\x7d\x7dw" :=
  ⟨by intro kv hkv; fin_cases hkv <;> decide,
    render_no_rescan_same_or_earlier.1 "\x7b\x7bA\x7d\x7d\x7b\x7bB\x7d\x7d"
      [("B", JSVal.str "w"), ("A", JSVal.str "\x7b\x7bB\x7d\x7d")]
      (by intro kv hkv; fin_cases hkv <;> decide),
    by decide⟩

/-- C5 counterexample: sequential per-key replacement differs from the
simultaneous global substitution described by the claim: the value
substituted for A ends in an unmatched brace pair opener which merges with
the remaining template text, and the later pass for B then rewrites it, so
the occurrence of the A placeholder is not simply replaced by the string
form of its value in the output. -/
theorem render_vs_simultaneous_cex :
    render "\x7b\x7bA\x7d\x7d\x7d\x7d"
        [("A", JSVal.str "\x7b\x7bB"), ("B", JSVal.str "y")] = "y"
      ∧ substSpec [("A", JSVal.str "\x7b\x7bB"), ("B", JSVal.str "y")]
          "\x7b\x7bA\x7d\x7d\x7d\x7d" = "\x7b\x7bB\x7d\x7d"
      ∧ ("y" : String) ≠ "\x7b\x7bB\x7d\x7d" :=
  ⟨rfl, rfl, by decide⟩

/-- C5 (amended): for a single-key mapping whose value string carries no
dollar escape, and for the empty mapping, render coincides exactly with the
simultaneous global substitution: every literal occurrence of the key
placeholder is replaced by the string form of its value (null and undefined
becoming empty), unknown placeholders and all other text stay untouched;
with several keys the passes run sequentially in mapping order, so earlier
substitutions are re-scanned by later keys.  The two concrete examples of
the claim hold as stated. -/
theorem render_single_key_spec :
    (∀ (templateStr k : String) (v : JSVal), '$' ∉ chars (jsNullish v) →
        render templateStr [(k, v)] = substSpec [(k, v)] templateStr)
      ∧ (∀ templateStr, render templateStr [] = templateStr)
      ∧ render "Hello \x7b\x7bNAME\x7d\x7d, \x7b\x7bNAME\x7d\x7d again"
          [("NAME", JSVal.str "X")] = "Hello X, X again"
      ∧ render "Hello \x7b\x7bNAME\x7d\x7d" [("OTHER", JSVal.str "Y")]
          = "Hello \x7b\x7bNAME\x7d\x7d"
      ∧ render "\x7b\x7bA\x7d\x7d" [("A", JSVal.null)] = "" := by
  refine ⟨?_, fun t => rfl, rfl, rfl, rfl⟩
  intro t k v hd
  exact congrArg String.mk (renderGo_single k v hd t.data.length t.data [])

/-- C5 witness: the single-key equivalence at a concrete template with two
occurrences of the key placeholder. -/
theorem render_single_key_spec_witness :
    '$' ∉ chars (jsNullish (JSVal.str "Z"))
      ∧ render "x\x7b\x7bK\x7d\x7dy\x7b\x7bK\x7d\x7d" [("K", JSVal.str "Z")]
          = substSpec [("K", JSVal.str "Z")] "x\x7b\x7bK\x7d\x7dy\x7b\x7bK\x7d\x7d" :=
  ⟨by decide,
    render_single_key_spec.1 "x\x7b\x7bK\x7d\x7dy\x7b\x7bK\x7d\x7d" "K"
      (JSVal.str "Z") (by decide)⟩

/-! ### Order facts about the JS string comparison and the date sort -/

theorem jsLt_asymm : ∀ {a b : List Char}, jsLtChars a b = true → jsLtChars b a = false := by
  intro a
  induction a with
  | nil =>
      intro b h
      cases b with
      | nil => simp [jsLtChars] at h
      | cons y bs => rfl
  | cons x as ih =>
      intro b h
      cases b with
      | nil => simp [jsLtChars] at h
      | cons y bs =>
          by_cases hxy : x < y
          · have hyx : ¬ y < x := lt_asymm hxy
            simp [jsLtChars, hxy, hyx]
          · by_cases hyx : y < x
            · simp [jsLtChars, hxy, hyx] at h
            · have hrec : jsLtChars as bs = true := by
                simpa [jsLtChars, hxy, hyx] using h
              simp [jsLtChars, hxy, hyx, ih hrec]

theorem jsLt_trans : ∀ {a b c : List Char},
    jsLtChars a b = true → jsLtChars b c = true → jsLtChars a c = true := by
  intro a
  induction a with
  | nil =>
      intro b c h1 h2
      cases b with
      | nil => simp [jsLtChars] at h1
      | cons y bs =>
          cases c with
          | nil => simp [jsLtChars] at h2
          | cons z cs => rfl
  | cons x as ih =>
      intro b c h1 h2
      cases b with
      | nil => simp [jsLtChars] at h1
      | cons y bs =>
          cases c with
          | nil => simp [jsLtChars] at h2
          | cons z cs =>
              by_cases hxy : x < y
              · by_cases hyz : y < z
                · simp [jsLtChars, lt_trans hxy hyz]
                · by_cases hzy : z < y
                  · simp [jsLtChars, hyz, hzy] at h2
                  · have hyz_eq : y = z :=
                      le_antisymm (not_lt.mp hzy) (not_lt.mp hyz)
                    subst hyz_eq
                    simp [jsLtChars, hxy]
              · by_cases hyx : y < x
                · simp [jsLtChars, hxy, hyx] at h1
                · have hxy_eq : x = y := le_antisymm (not_lt.mp hyx) (not_lt.mp hxy)
                  subst hxy_eq
                  have h1r : jsLtChars as bs = true := by
                    simpa [jsLtChars, lt_irrefl] using h1
                  by_cases hxz : x < z
                  · simp [jsLtChars, hxz]
                  · by_cases hzx : z < x
                    · simp [jsLtChars, hxz, hzx] at h2
                    · have hxz_eq : x = z := le_antisymm (not_lt.mp hzx) (not_lt.mp hxz)
                      subst hxz_eq
                      have h2r : jsLtChars bs cs = true := by
                        simpa [jsLtChars, lt_irrefl] using h2
                      simp [jsLtChars, lt_irrefl, ih h1r h2r]

theorem jsLt_conn : ∀ {a b : List Char},
    jsLtChars a b = false → jsLtChars b a = false → a = b := by
  intro a
  induction a with
  | nil =>
      intro b h1 h2
      cases b with
      | nil => rfl
      | cons y bs => simp [jsLtChars] at h1
  | cons x as ih =>
      intro b h1 h2
      cases b with
      | nil => simp [jsLtChars] at h2
      | cons y bs =>
          by_cases hxy : x < y
          · simp [jsLtChars, hxy] at h1
          · by_cases hyx : y < x
            · simp [jsLtChars, hyx] at h2
            · have hxy_eq : x = y := le_antisymm (not_lt.mp hyx) (not_lt.mp hxy)
              subst hxy_eq
              have h1r : jsLtChars as bs = false := by
                simpa [jsLtChars, lt_irrefl] using h1
              have h2r : jsLtChars bs as = false := by
                simpa [jsLtChars, lt_irrefl] using h2
              rw [ih h1r h2r]

theorem postLe_iff (a b : Post) :
    postLe a b ↔ jsLtChars a.date.data b.date.data = false := by
  by_cases h : jsLtChars a.date.data b.date.data <;> simp [postLe, postCmp, h]

instance : IsTotal Post postLe :=
  ⟨fun a b => by
    by_cases h : jsLtChars a.date.data b.date.data
    · exact Or.inr ((postLe_iff b a).mpr (jsLt_asymm h))
    · exact Or.inl ((postLe_iff a b).mpr (by simpa using h))⟩

instance : IsTrans Post postLe :=
  ⟨fun a b c hab hbc => by
    rw [postLe_iff] at hab hbc ⊢
    by_cases hac : jsLtChars a.date.data c.date.data
    · exfalso
      by_cases hba : jsLtChars b.date.data a.date.data
      · exact absurd (jsLt_trans hba hac) (by simp [hbc])
      · have : a.date.data = b.date.data := jsLt_conn hab (by simpa using hba)
        rw [this] at hac
        exact absurd hac (by simp [hbc])
    · simpa using hac⟩

/-- The underlying character list determines the string. -/
theorem stringDataInj {s t : String} (h : s.data = t.data) : s = t := by
  cases s; cases t; exact congrArg String.mk h

/-- C6: whenever the loader succeeds and the loaded posts carry pairwise
distinct date strings, the date sequence is strictly descending in the JS
lexicographic string order (the sort of build.mjs line 201). -/
theorem loadPosts_sorted_desc (blogSlug : String) (postsDir : Option (List MDFile))
    (posts : List Post)
    (hok : loadPosts blogSlug postsDir = .ok posts)
    (hdistinct : (posts.map Post.date).Pairwise (fun x y => x ≠ y)) :
    (posts.map Post.date).Pairwise (fun x y => jsLtChars y.data x.data = true) := by
  rw [List.pairwise_map] at hdistinct ⊢
  cases postsDir with
  | none =>
      have hok2 : (Except.ok [] : Except String (List Post)) = .ok posts := hok
      injection hok2 with h0
      simp [← h0]
  | some files =>
      have hok2 : Except.map (List.insertionSort postLe) (loadPostsGo blogSlug files)
          = .ok posts := hok
      cases hgo : loadPostsGo blogSlug files with
      | error e =>
          rw [hgo] at hok2
          exact absurd hok2 (by simp [Except.map])
      | ok l0 =>
          rw [hgo] at hok2
          have hmap : List.insertionSort postLe l0 = posts := by
            simpa [Except.map] using hok2
          have hs : List.Sorted postLe (List.insertionSort postLe l0) :=
            List.sorted_insertionSort postLe l0
          rw [hmap] at hs
          refine (hs.and hdistinct).imp ?_
          rintro a b ⟨hle, hne⟩
          rw [postLe_iff] at hle
          by_cases hba : jsLtChars b.date.data a.date.data
          · exact hba
          · exact absurd (stringDataInj (jsLt_conn hle (by simpa using hba))) hne

/-- Concrete file dated january, for the C6 witness. -/
def fileJanC6 : MDFile :=
  { name := "jan.md"
  , fm := { title := .str "Jan", date := .str "2024-01-01", author := .str "A" }
  , content := "c1" }

/-- Concrete file dated march, for the C6 witness. -/
def fileMarC6 : MDFile :=
  { name := "mar.md"
  , fm := { title := .str "Mar", date := .str "2024-03-01", author := .str "A" }
  , content := "c2" }

/-- Concrete file dated february, for the C6 witness. -/
def fileFebC6 : MDFile :=
  { name := "feb.md"
  , fm := { title := .str "Feb", date := .str "2024-02-01", author := .str "A" }
  , content := "c3" }

/-- C6 witness: the three-post example of the specification loads in the
order march, february, january, and the theorem applies to it. -/
theorem loadPosts_sorted_desc_witness :
    loadPosts "b" (some [fileJanC6, fileMarC6, fileFebC6])
        = .ok [mkPost fileMarC6, mkPost fileFebC6, mkPost fileJanC6]
      ∧ ([mkPost fileMarC6, mkPost fileFebC6, mkPost fileJanC6].map Post.date)
          = ["2024-03-01", "2024-02-01", "2024-01-01"]
      ∧ ([mkPost fileMarC6, mkPost fileFebC6, mkPost fileJanC6].map Post.date).Pairwise
          (fun x y => jsLtChars y.data x.data = true) :=
  ⟨rfl, rfl,
    loadPosts_sorted_desc "b" (some [fileJanC6, fileMarC6, fileFebC6]) _ rfl (by decide)⟩

/-! ### Theme dispatch -/

/-- C7: every theme identifier without a dedicated branch produces, in each
of the four fragment builders and on every input, exactly the output of the
default word-retro theme: dispatch is total and falls back to the default
branch. -/
theorem theme_dispatch_default (theme : String) (h : theme ∉ namedThemes) :
    (∀ posts blogSlug,
        buildPostListHtml posts blogSlug theme = buildPostListHtml posts blogSlug "word-retro")
      ∧ (∀ posts, buildTagFilterHtml posts theme = buildTagFilterHtml posts "word-retro")
      ∧ (∀ post label blogSlug,
          buildNavCard post label blogSlug theme = buildNavCard post label blogSlug "word-retro")
      ∧ (∀ tags, buildTagsHtml tags theme = buildTagsHtml tags "word-retro") := by
  simp only [namedThemes, List.mem_cons, List.mem_singleton, not_or] at h
  obtain ⟨h1, h2, h3, h4, h5, h6, h7, h8, h9, h10, -⟩ := h
  have w1 : ¬ (("word-retro" : String) = "retro-cosmic") := by decide
  have w2 : ¬ (("word-retro" : String) = "gym-log") := by decide
  have w3 : ¬ (("word-retro" : String) = "love-column") := by decide
  have w4 : ¬ (("word-retro" : String) = "izakaya") := by decide
  have w5 : ¬ (("word-retro" : String) = "onsen-cosmos") := by decide
  have w6 : ¬ (("word-retro" : String) = "comedy-zine") := by decide
  have w7 : ¬ (("word-retro" : String) = "academy-log") := by decide
  have w8 : ¬ (("word-retro" : String) = "terminal") := by decide
  have w9 : ¬ (("word-retro" : String) = "kawase-blog") := by decide
  have w10 : ¬ (("word-retro" : String) = "sake-modern") := by decide
  refine ⟨fun posts blogSlug => ?_, fun posts => ?_, fun post label blogSlug => ?_,
    fun tags => ?_⟩
  · simp only [buildPostListHtml, if_neg h1, if_neg h2, if_neg h3, if_neg h4, if_neg h5,
      if_neg h6, if_neg h7, if_neg h8, if_neg h9, if_neg h10, if_neg w1, if_neg w2,
      if_neg w3, if_neg w4, if_neg w5, if_neg w6, if_neg w7, if_neg w8, if_neg w9,
      if_neg w10]
  · simp only [buildTagFilterHtml, if_neg h1, if_neg h2, if_neg h3, if_neg h4, if_neg h5,
      if_neg h6, if_neg h7, if_neg h8, if_neg h9, if_neg h10, if_neg w1, if_neg w2,
      if_neg w3, if_neg w4, if_neg w5, if_neg w6, if_neg w7, if_neg w8, if_neg w9,
      if_neg w10]
  · cases post with
    | none => rfl
    | some p =>
        simp only [buildNavCard, if_neg h1, if_neg h2, if_neg h3, if_neg h4, if_neg h5,
          if_neg h6, if_neg h7, if_neg h8, if_neg h9, if_neg h10, if_neg w1, if_neg w2,
          if_neg w3, if_neg w4, if_neg w5, if_neg w6, if_neg w7, if_neg w8, if_neg w9,
          if_neg w10]
  · simp only [buildTagsHtml, if_neg h1, if_neg h2, if_neg h3, if_neg h4, if_neg h5,
      if_neg h6, if_neg h7, if_neg h8, if_neg h9, if_neg h10, if_neg w1, if_neg w2,
      if_neg w3, if_neg w4, if_neg w5, if_neg w6, if_neg w7, if_neg w8, if_neg w9,
      if_neg w10]

/-- C7 witness: the unknown identifier sparkle behaves as the default theme
on concrete builder inputs. -/
theorem theme_dispatch_default_witness :
    ("sparkle" : String) ∉ namedThemes
      ∧ buildPostListHtml [] "b" "sparkle" = buildPostListHtml [] "b" "word-retro"
      ∧ buildTagFilterHtml [] "sparkle" = buildTagFilterHtml [] "word-retro"
      ∧ buildNavCard none "prev" "b" "sparkle" = buildNavCard none "prev" "b" "word-retro"
      ∧ buildTagsHtml [] "sparkle" = buildTagsHtml [] "word-retro" :=
  ⟨by decide,
    (theme_dispatch_default "sparkle" (by decide)).1 [] "b",
    (theme_dispatch_default "sparkle" (by decide)).2.1 [],
    (theme_dispatch_default "sparkle" (by decide)).2.2.1 none "prev" "b",
    (theme_dispatch_default "sparkle" (by decide)).2.2.2 []⟩

/-! ### Client-side tag filter -/

/-- C8 counterexample: for the kawase theme, whose generated filter markup
marks the show-all button with the class pair kawase-tag kawase-tag-active,
a click on the other button leaves kawase-tag-active on the non-clicked
button (the handler only ever removes the word, cosmic and term active
classes) and puts word-tag-active, not a kawase variant, on the clicked
button — so it is not the case that exactly the clicked button carries the
active-state class variant of its theme. -/
theorem tagFilter_kawase_active_cex :
    (tagFilterClick
        [{ classes := ["kawase-tag", "kawase-tag-active"], tagBtn := "__all__" },
          { classes := ["kawase-tag"], tagBtn := "food" }] [] 1).1
      = [{ classes := ["kawase-tag", "kawase-tag-active"], tagBtn := "__all__" },
          { classes := ["kawase-tag", "word-tag-active"], tagBtn := "food" }]
      ∧ ((tagFilterClick
            [{ classes := ["kawase-tag", "kawase-tag-active"], tagBtn := "__all__" },
              { classes := ["kawase-tag"], tagBtn := "food" }] [] 1).1.map
          (fun b => b.classes.contains "kawase-tag-active")) = [true, false] :=
  ⟨by decide, by decide⟩

theorem addClass_self_mem (b : TFButton) (cls : String) : cls ∈ (addClass b cls).classes := by
  unfold addClass
  by_cases hc : b.classes.contains cls
  · simp only [if_pos hc]
    simpa using hc
  · simp only [if_neg hc]
    simp

theorem mem_addClass (b : TFButton) (cls c : String) (h : c ∈ b.classes) :
    c ∈ (addClass b cls).classes := by
  unfold addClass
  by_cases hc : b.classes.contains cls
  · simp only [if_pos hc]; exact h
  · simp only [if_neg hc]; exact List.mem_append_left _ h

/-- C8 (amended): clicking filter button i shows a card exactly when the
selected tag is the sentinel show-all value or the comma-split tag list of
the card contains it; the handler manages only the three active classes of
the word, cosmic and terminal themes, so after the click no other button
carries any of those three, the clicked button carries the one chosen for
it (cosmic for a cosmic-tag button, term for a term-tag button, word
otherwise), and any class outside those three — including the active
classes of the kawase and sake themes — survives on whichever button held
it. -/
theorem tagFilter_click_spec (buttons : List TFButton) (cards : List TFCard) (i : Nat)
    (clicked : TFButton) (h : buttons[i]? = some clicked) :
    (∀ (j : Nat) (card : TFCard), cards[j]? = some card →
        (tagFilterClick buttons cards i).2[j]? = some
          { card with display :=
              if clicked.tagBtn = "__all__" ∨ (cardTagList card).contains clicked.tagBtn
              then "" else "none" })
      ∧ (∀ (j : Nat) (b : TFButton), j ≠ i → (tagFilterClick buttons cards i).1[j]? = some b →
          "word-tag-active" ∉ b.classes
            ∧ "cosmic-tag-active" ∉ b.classes
            ∧ "term-tag-active" ∉ b.classes)
      ∧ (∀ (b : TFButton), (tagFilterClick buttons cards i).1[i]? = some b →
          chooseActive (stripActive clicked) ∈ b.classes)
      ∧ (∀ (j : Nat) (b : TFButton) (c : String), buttons[j]? = some b → c ∈ b.classes →
          c ≠ "word-tag-active" → c ≠ "cosmic-tag-active" → c ≠ "term-tag-active" →
          ∃ b2, (tagFilterClick buttons cards i).1[j]? = some b2 ∧ c ∈ b2.classes) := by
  obtain ⟨hlt, -⟩ := List.getElem?_eq_some_iff.mp h
  refine ⟨?_, ?_, ?_, ?_⟩
  · intro j card hcard
    simp only [tagFilterClick, h, List.getElem?_map, hcard, Option.map_some']
    congr 1
    split <;> rfl
  · intro j b hji hjb
    simp only [tagFilterClick, h] at hjb
    rw [List.getElem?_set, if_neg (fun hh => hji hh.symm), List.getElem?_map] at hjb
    cases hb0 : buttons[j]? with
    | none => rw [hb0] at hjb; exact absurd hjb (by simp)
    | some b0 =>
        rw [hb0] at hjb
        have hb : b = stripActive b0 := by
          injection hjb with hh
          exact hh.symm
        subst hb
        refine ⟨fun hmem => ?_, fun hmem => ?_, fun hmem => ?_⟩
        all_goals
          obtain ⟨-, hp⟩ := List.mem_filter.mp hmem
          exact absurd hp (by decide)
  · intro b hb
    simp only [tagFilterClick, h] at hb
    rw [List.getElem?_set, if_pos rfl, if_pos (by simpa using hlt)] at hb
    injection hb with hb
    subst hb
    exact addClass_self_mem (stripActive clicked) (chooseActive (stripActive clicked))
  · intro j b c hjb hcmem hne1 hne2 hne3
    have hpc : (fun cl => !(cl == "word-tag-active" || cl == "cosmic-tag-active"
        || cl == "term-tag-active")) c = true := by
      simp [hne1, hne2, hne3]
    by_cases hji : i = j
    · subst hji
      have hbc : b = clicked := by
        rw [h] at hjb
        injection hjb with hh
        exact hh.symm
      subst hbc
      refine ⟨addClass (stripActive b) (chooseActive (stripActive b)), ?_, ?_⟩
      · simp only [tagFilterClick, h]
        rw [List.getElem?_set, if_pos rfl, if_pos (by simpa using hlt)]
      · exact mem_addClass _ _ _ (List.mem_filter.mpr ⟨hcmem, hpc⟩)
    · refine ⟨stripActive b, ?_, List.mem_filter.mpr ⟨hcmem, hpc⟩⟩
      simp only [tagFilterClick, h]
      rw [List.getElem?_set, if_neg hji, List.getElem?_map, hjb, Option.map_some']

/-- Concrete button list (default theme markup) for the C8 witness. -/
def buttonsW : List TFButton :=
  [{ classes := ["word-tag", "word-tag-active"], tagBtn := "__all__" },
    { classes := ["word-tag"], tagBtn := "a" }]

/-- Concrete card list for the C8 witness. -/
def cardsW : List TFCard :=
  [{ postTags := "a,b", display := "" }, { postTags := "c", display := "" }]

/-- C8 witness: clicking the second button of the concrete page shows the
card tagged a,b and hides the card tagged c. -/
theorem tagFilter_click_spec_witness :
    buttonsW[1]? = some { classes := ["word-tag"], tagBtn := "a" }
      ∧ (tagFilterClick buttonsW cardsW 1).2[0]? = some
          { postTags := "a,b"
          , display :=
              if ("a" : String) = "__all__"
                  ∨ (cardTagList { postTags := "a,b", display := "" }).contains "a"
              then "" else "none" }
      ∧ (tagFilterClick buttonsW cardsW 1).2[0]? = some { postTags := "a,b", display := "" }
      ∧ (tagFilterClick buttonsW cardsW 1).2[1]? = some { postTags := "c", display := "none" }
      ∧ (tagFilterClick buttonsW cardsW 1).1.map TFButton.classes
          = [["word-tag"], ["word-tag", "word-tag-active"]] :=
  ⟨rfl,
    (tagFilter_click_spec buttonsW cardsW 1 { classes := ["word-tag"], tagBtn := "a" } rfl).1
      0 { postTags := "a,b", display := "" } rfl,
    by decide, by decide, by decide⟩

/-! ### List balance of the markdown renderer -/

theorem countOcc_cons_neg {pat : List Char} {c : Char} {t : List Char}
    (h : pat.isPrefixOf (c :: t) = false) : countOcc pat (c :: t) = countOcc pat t := by
  simp [countOcc, h]

/-- A pattern that opens with a character missing from a never contributes
occurrences starting inside a. -/
theorem countOcc_append_no_lt (pat : List Char) (hpat : pat.head? = some '<') :
    ∀ (a b : List Char), '<' ∉ a → countOcc pat (a ++ b) = countOcc pat b := by
  cases pat with
  | nil => exact absurd hpat (by simp)
  | cons p0 ps =>
      have hp0 : p0 = '<' := by
        have h2 : some p0 = some '<' := hpat
        injection h2
      subst hp0
      intro a
      induction a with
      | nil => intro b _; rfl
      | cons x xs ih =>
          intro b ha
          have hx : x ≠ '<' := fun hh => ha (hh ▸ List.mem_cons_self x xs)
          have hbeq : ('<' == x) = false := beq_eq_false_iff_ne.mpr (fun hh => hx hh.symm)
          have hpre : (('<' :: ps).isPrefixOf (x :: (xs ++ b))) = false := by
            simp [List.isPrefixOf, hbeq]
          calc countOcc ('<' :: ps) ((x :: xs) ++ b)
              = countOcc ('<' :: ps) (xs ++ b) := countOcc_cons_neg hpre
            _ = countOcc ('<' :: ps) b := ih b (fun hh => ha (List.mem_cons_of_mem _ hh))

theorem mem_of_getLast?_eq {l : List Char} {a : Char} (h : l.getLast? = some a) : a ∈ l := by
  obtain ⟨hne, heq⟩ :=
    List.mem_getLast?_eq_getLast (show a ∈ l.getLast? by simp [Option.mem_def, h])
  rw [heq]
  exact List.getLast_mem hne

theorem isPrefixOf_append_left (pat : List Char) :
    ∀ (u b : List Char), pat.length ≤ u.length →
      pat.isPrefixOf (u ++ b) = pat.isPrefixOf u := by
  induction pat with
  | nil => intro u b _; simp [List.isPrefixOf]
  | cons p ps ih =>
      intro u b h
      cases u with
      | nil => simp at h
      | cons x xs =>
          simp only [List.cons_append, List.isPrefixOf, List.append_eq]
          rw [ih xs b (Nat.le_of_succ_le_succ (by simpa using h))]

theorem isPrefixOf_newline_head_false {pat : List Char} (hne : pat ≠ [])
    (hnl : '\n' ∉ pat) (t : List Char) : pat.isPrefixOf ('\n' :: t) = false := by
  cases pat with
  | nil => exact absurd rfl hne
  | cons p0 ps =>
      have hp0 : p0 ≠ '\n' := fun hh => hnl (hh ▸ List.mem_cons_self _ _)
      have hbeq : (p0 == '\n') = false := beq_eq_false_iff_ne.mpr hp0
      simp [List.isPrefixOf, hbeq]

/-- Occurrence counting distributes over an append whose left part ends in a
newline, for a newline-free pattern: no occurrence can straddle the
boundary. -/
theorem countOcc_append_nl (pat : List Char) (hne : pat ≠ []) (hnl : '\n' ∉ pat) :
    ∀ (a b : List Char), (a = [] ∨ a.getLast? = some '\n') →
      countOcc pat (a ++ b) = countOcc pat a + countOcc pat b := by
  intro a
  induction a with
  | nil => intro b _; simp [countOcc]
  | cons x xs ih =>
      intro b ha
      have hlast : (x :: xs).getLast? = some '\n' := by
        rcases ha with h | h
        · exact absurd h (List.cons_ne_nil x xs)
        · exact h
      cases xs with
      | nil =>
          have hx : x = '\n' := by
            have h2 : some x = some '\n' := hlast
            injection h2
          subst hx
          show (if pat.isPrefixOf ('\n' :: b) then 1 else 0) + countOcc pat b
              = countOcc pat ['\n'] + countOcc pat b
          rw [isPrefixOf_newline_head_false hne hnl b]
          simp [countOcc, isPrefixOf_newline_head_false hne hnl ([] : List Char)]
      | cons y ys =>
          have hlast2 : (y :: ys).getLast? = some '\n' := by
            rw [← List.getLast?_cons_cons]
            exact hlast
          have hih := ih b (Or.inr hlast2)
          show (if pat.isPrefixOf ((x :: y :: ys) ++ b) then 1 else 0)
                + countOcc pat ((y :: ys) ++ b)
              = ((if pat.isPrefixOf (x :: y :: ys) then 1 else 0) + countOcc pat (y :: ys))
                + countOcc pat b
          by_cases hlen : pat.length ≤ (x :: y :: ys).length
          · rw [hih, isPrefixOf_append_left pat (x :: y :: ys) b hlen]
            omega
          · have hfu : pat.isPrefixOf (x :: y :: ys) = false := by
              cases hP : pat.isPrefixOf (x :: y :: ys) with
              | false => rfl
              | true =>
                  exact absurd ((List.isPrefixOf_iff_prefix.mp hP).length_le) hlen
            have hfu2 : pat.isPrefixOf ((x :: y :: ys) ++ b) = false := by
              cases hP : pat.isPrefixOf ((x :: y :: ys) ++ b) with
              | false => rfl
              | true =>
                  exfalso
                  have hpre : pat <+: ((x :: y :: ys) ++ b) :=
                    List.isPrefixOf_iff_prefix.mp hP
                  have hu : (x :: y :: ys) <+: pat :=
                    List.prefix_of_prefix_length_le (List.prefix_append _ _) hpre
                      (Nat.le_of_lt (Nat.lt_of_not_le hlen))
                  exact hnl (hu.subset (mem_of_getLast?_eq hlast))
            rw [hih, hfu, hfu2]
            simp

/-- The four list tag patterns whose balance the invariant tracks. -/
def listTagPats : List (List Char) :=
  [chars "<ol>", chars "</ol>", chars "<ul>", chars "</ul>"]

theorem countOcc_chunk_h3 (pat : List Char) (hp : pat ∈ listTagPats) (e : List Char)
    (he : '<' ∉ e) :
    countOcc pat (chars "<h3>" ++ e ++ chars "</h3>\n") = 0 := by
  rw [List.append_assoc]
  simp only [listTagPats, List.mem_cons, List.mem_singleton] at hp
  rcases hp with rfl | rfl | rfl | rfl | h
  case inr.inr.inr.inr => simp at h
  · show countOcc (chars "<ol>") ('<' :: 'h' :: '3' :: '>' :: (e ++ chars "</h3>\n")) = 0
    rw [
      countOcc_cons_neg (show (chars "<ol>").isPrefixOf ('<' :: 'h' :: '3' :: '>' :: (e ++ chars "</h3>\n")) = false from rfl),
      countOcc_cons_neg (show (chars "<ol>").isPrefixOf ('h' :: '3' :: '>' :: (e ++ chars "</h3>\n")) = false from rfl),
      countOcc_cons_neg (show (chars "<ol>").isPrefixOf ('3' :: '>' :: (e ++ chars "</h3>\n")) = false from rfl),
      countOcc_cons_neg (show (chars "<ol>").isPrefixOf ('>' :: (e ++ chars "</h3>\n")) = false from rfl),
      countOcc_append_no_lt (chars "<ol>") rfl e (chars "</h3>\n") he]
    decide
  · show countOcc (chars "</ol>") ('<' :: 'h' :: '3' :: '>' :: (e ++ chars "</h3>\n")) = 0
    rw [
      countOcc_cons_neg (show (chars "</ol>").isPrefixOf ('<' :: 'h' :: '3' :: '>' :: (e ++ chars "</h3>\n")) = false from rfl),
      countOcc_cons_neg (show (chars "</ol>").isPrefixOf ('h' :: '3' :: '>' :: (e ++ chars "</h3>\n")) = false from rfl),
      countOcc_cons_neg (show (chars "</ol>").isPrefixOf ('3' :: '>' :: (e ++ chars "</h3>\n")) = false from rfl),
      countOcc_cons_neg (show (chars "</ol>").isPrefixOf ('>' :: (e ++ chars "</h3>\n")) = false from rfl),
      countOcc_append_no_lt (chars "</ol>") rfl e (chars "</h3>\n") he]
    decide
  · show countOcc (chars "<ul>") ('<' :: 'h' :: '3' :: '>' :: (e ++ chars "</h3>\n")) = 0
    rw [
      countOcc_cons_neg (show (chars "<ul>").isPrefixOf ('<' :: 'h' :: '3' :: '>' :: (e ++ chars "</h3>\n")) = false from rfl),
      countOcc_cons_neg (show (chars "<ul>").isPrefixOf ('h' :: '3' :: '>' :: (e ++ chars "</h3>\n")) = false from rfl),
      countOcc_cons_neg (show (chars "<ul>").isPrefixOf ('3' :: '>' :: (e ++ chars "</h3>\n")) = false from rfl),
      countOcc_cons_neg (show (chars "<ul>").isPrefixOf ('>' :: (e ++ chars "</h3>\n")) = false from rfl),
      countOcc_append_no_lt (chars "<ul>") rfl e (chars "</h3>\n") he]
    decide
  · show countOcc (chars "</ul>") ('<' :: 'h' :: '3' :: '>' :: (e ++ chars "</h3>\n")) = 0
    rw [
      countOcc_cons_neg (show (chars "</ul>").isPrefixOf ('<' :: 'h' :: '3' :: '>' :: (e ++ chars "</h3>\n")) = false from rfl),
      countOcc_cons_neg (show (chars "</ul>").isPrefixOf ('h' :: '3' :: '>' :: (e ++ chars "</h3>\n")) = false from rfl),
      countOcc_cons_neg (show (chars "</ul>").isPrefixOf ('3' :: '>' :: (e ++ chars "</h3>\n")) = false from rfl),
      countOcc_cons_neg (show (chars "</ul>").isPrefixOf ('>' :: (e ++ chars "</h3>\n")) = false from rfl),
      countOcc_append_no_lt (chars "</ul>") rfl e (chars "</h3>\n") he]
    decide

theorem countOcc_chunk_h2 (pat : List Char) (hp : pat ∈ listTagPats) (e : List Char)
    (he : '<' ∉ e) :
    countOcc pat (chars "<h2>" ++ e ++ chars "</h2>\n") = 0 := by
  rw [List.append_assoc]
  simp only [listTagPats, List.mem_cons, List.mem_singleton] at hp
  rcases hp with rfl | rfl | rfl | rfl | h
  case inr.inr.inr.inr => simp at h
  · show countOcc (chars "<ol>") ('<' :: 'h' :: '2' :: '>' :: (e ++ chars "</h2>\n")) = 0
    rw [
      countOcc_cons_neg (show (chars "<ol>").isPrefixOf ('<' :: 'h' :: '2' :: '>' :: (e ++ chars "</h2>\n")) = false from rfl),
      countOcc_cons_neg (show (chars "<ol>").isPrefixOf ('h' :: '2' :: '>' :: (e ++ chars "</h2>\n")) = false from rfl),
      countOcc_cons_neg (show (chars "<ol>").isPrefixOf ('2' :: '>' :: (e ++ chars "</h2>\n")) = false from rfl),
      countOcc_cons_neg (show (chars "<ol>").isPrefixOf ('>' :: (e ++ chars "</h2>\n")) = false from rfl),
      countOcc_append_no_lt (chars "<ol>") rfl e (chars "</h2>\n") he]
    decide
  · show countOcc (chars "</ol>") ('<' :: 'h' :: '2' :: '>' :: (e ++ chars "</h2>\n")) = 0
    rw [
      countOcc_cons_neg (show (chars "</ol>").isPrefixOf ('<' :: 'h' :: '2' :: '>' :: (e ++ chars "</h2>\n")) = false from rfl),
      countOcc_cons_neg (show (chars "</ol>").isPrefixOf ('h' :: '2' :: '>' :: (e ++ chars "</h2>\n")) = false from rfl),
      countOcc_cons_neg (show (chars "</ol>").isPrefixOf ('2' :: '>' :: (e ++ chars "</h2>\n")) = false from rfl),
      countOcc_cons_neg (show (chars "</ol>").isPrefixOf ('>' :: (e ++ chars "</h2>\n")) = false from rfl),
      countOcc_append_no_lt (chars "</ol>") rfl e (chars "</h2>\n") he]
    decide
  · show countOcc (chars "<ul>") ('<' :: 'h' :: '2' :: '>' :: (e ++ chars "</h2>\n")) = 0
    rw [
      countOcc_cons_neg (show (chars "<ul>").isPrefixOf ('<' :: 'h' :: '2' :: '>' :: (e ++ chars "</h2>\n")) = false from rfl),
      countOcc_cons_neg (show (chars "<ul>").isPrefixOf ('h' :: '2' :: '>' :: (e ++ chars "</h2>\n")) = false from rfl),
      countOcc_cons_neg (show (chars "<ul>").isPrefixOf ('2' :: '>' :: (e ++ chars "</h2>\n")) = false from rfl),
      countOcc_cons_neg (show (chars "<ul>").isPrefixOf ('>' :: (e ++ chars "</h2>\n")) = false from rfl),
      countOcc_append_no_lt (chars "<ul>") rfl e (chars "</h2>\n") he]
    decide
  · show countOcc (chars "</ul>") ('<' :: 'h' :: '2' :: '>' :: (e ++ chars "</h2>\n")) = 0
    rw [
      countOcc_cons_neg (show (chars "</ul>").isPrefixOf ('<' :: 'h' :: '2' :: '>' :: (e ++ chars "</h2>\n")) = false from rfl),
      countOcc_cons_neg (show (chars "</ul>").isPrefixOf ('h' :: '2' :: '>' :: (e ++ chars "</h2>\n")) = false from rfl),
      countOcc_cons_neg (show (chars "</ul>").isPrefixOf ('2' :: '>' :: (e ++ chars "</h2>\n")) = false from rfl),
      countOcc_cons_neg (show (chars "</ul>").isPrefixOf ('>' :: (e ++ chars "</h2>\n")) = false from rfl),
      countOcc_append_no_lt (chars "</ul>") rfl e (chars "</h2>\n") he]
    decide

theorem countOcc_chunk_h1 (pat : List Char) (hp : pat ∈ listTagPats) (e : List Char)
    (he : '<' ∉ e) :
    countOcc pat (chars "<h1>" ++ e ++ chars "</h1>\n") = 0 := by
  rw [List.append_assoc]
  simp only [listTagPats, List.mem_cons, List.mem_singleton] at hp
  rcases hp with rfl | rfl | rfl | rfl | h
  case inr.inr.inr.inr => simp at h
  · show countOcc (chars "<ol>") ('<' :: 'h' :: '1' :: '>' :: (e ++ chars "</h1>\n")) = 0
    rw [
      countOcc_cons_neg (show (chars "<ol>").isPrefixOf ('<' :: 'h' :: '1' :: '>' :: (e ++ chars "</h1>\n")) = false from rfl),
      countOcc_cons_neg (show (chars "<ol>").isPrefixOf ('h' :: '1' :: '>' :: (e ++ chars "</h1>\n")) = false from rfl),
      countOcc_cons_neg (show (chars "<ol>").isPrefixOf ('1' :: '>' :: (e ++ chars "</h1>\n")) = false from rfl),
      countOcc_cons_neg (show (chars "<ol>").isPrefixOf ('>' :: (e ++ chars "</h1>\n")) = false from rfl),
      countOcc_append_no_lt (chars "<ol>") rfl e (chars "</h1>\n") he]
    decide
  · show countOcc (chars "</ol>") ('<' :: 'h' :: '1' :: '>' :: (e ++ chars "</h1>\n")) = 0
    rw [
      countOcc_cons_neg (show (chars "</ol>").isPrefixOf ('<' :: 'h' :: '1' :: '>' :: (e ++ chars "</h1>\n")) = false from rfl),
      countOcc_cons_neg (show (chars "</ol>").isPrefixOf ('h' :: '1' :: '>' :: (e ++ chars "</h1>\n")) = false from rfl),
      countOcc_cons_neg (show (chars "</ol>").isPrefixOf ('1' :: '>' :: (e ++ chars "</h1>\n")) = false from rfl),
      countOcc_cons_neg (show (chars "</ol>").isPrefixOf ('>' :: (e ++ chars "</h1>\n")) = false from rfl),
      countOcc_append_no_lt (chars "</ol>") rfl e (chars "</h1>\n") he]
    decide
  · show countOcc (chars "<ul>") ('<' :: 'h' :: '1' :: '>' :: (e ++ chars "</h1>\n")) = 0
    rw [
      countOcc_cons_neg (show (chars "<ul>").isPrefixOf ('<' :: 'h' :: '1' :: '>' :: (e ++ chars "</h1>\n")) = false from rfl),
      countOcc_cons_neg (show (chars "<ul>").isPrefixOf ('h' :: '1' :: '>' :: (e ++ chars "</h1>\n")) = false from rfl),
      countOcc_cons_neg (show (chars "<ul>").isPrefixOf ('1' :: '>' :: (e ++ chars "</h1>\n")) = false from rfl),
      countOcc_cons_neg (show (chars "<ul>").isPrefixOf ('>' :: (e ++ chars "</h1>\n")) = false from rfl),
      countOcc_append_no_lt (chars "<ul>") rfl e (chars "</h1>\n") he]
    decide
  · show countOcc (chars "</ul>") ('<' :: 'h' :: '1' :: '>' :: (e ++ chars "</h1>\n")) = 0
    rw [
      countOcc_cons_neg (show (chars "</ul>").isPrefixOf ('<' :: 'h' :: '1' :: '>' :: (e ++ chars "</h1>\n")) = false from rfl),
      countOcc_cons_neg (show (chars "</ul>").isPrefixOf ('h' :: '1' :: '>' :: (e ++ chars "</h1>\n")) = false from rfl),
      countOcc_cons_neg (show (chars "</ul>").isPrefixOf ('1' :: '>' :: (e ++ chars "</h1>\n")) = false from rfl),
      countOcc_cons_neg (show (chars "</ul>").isPrefixOf ('>' :: (e ++ chars "</h1>\n")) = false from rfl),
      countOcc_append_no_lt (chars "</ul>") rfl e (chars "</h1>\n") he]
    decide

theorem countOcc_chunk_li (pat : List Char) (hp : pat ∈ listTagPats) (e : List Char)
    (he : '<' ∉ e) :
    countOcc pat (chars "  <li>" ++ e ++ chars "</li>\n") = 0 := by
  rw [List.append_assoc]
  simp only [listTagPats, List.mem_cons, List.mem_singleton] at hp
  rcases hp with rfl | rfl | rfl | rfl | h
  case inr.inr.inr.inr => simp at h
  · show countOcc (chars "<ol>") (' ' :: ' ' :: '<' :: 'l' :: 'i' :: '>' :: (e ++ chars "</li>\n")) = 0
    rw [
      countOcc_cons_neg (show (chars "<ol>").isPrefixOf (' ' :: ' ' :: '<' :: 'l' :: 'i' :: '>' :: (e ++ chars "</li>\n")) = false from rfl),
      countOcc_cons_neg (show (chars "<ol>").isPrefixOf (' ' :: '<' :: 'l' :: 'i' :: '>' :: (e ++ chars "</li>\n")) = false from rfl),
      countOcc_cons_neg (show (chars "<ol>").isPrefixOf ('<' :: 'l' :: 'i' :: '>' :: (e ++ chars "</li>\n")) = false from rfl),
      countOcc_cons_neg (show (chars "<ol>").isPrefixOf ('l' :: 'i' :: '>' :: (e ++ chars "</li>\n")) = false from rfl),
      countOcc_cons_neg (show (chars "<ol>").isPrefixOf ('i' :: '>' :: (e ++ chars "</li>\n")) = false from rfl),
      countOcc_cons_neg (show (chars "<ol>").isPrefixOf ('>' :: (e ++ chars "</li>\n")) = false from rfl),
      countOcc_append_no_lt (chars "<ol>") rfl e (chars "</li>\n") he]
    decide
  · show countOcc (chars "</ol>") (' ' :: ' ' :: '<' :: 'l' :: 'i' :: '>' :: (e ++ chars "</li>\n")) = 0
    rw [
      countOcc_cons_neg (show (chars "</ol>").isPrefixOf (' ' :: ' ' :: '<' :: 'l' :: 'i' :: '>' :: (e ++ chars "</li>\n")) = false from rfl),
      countOcc_cons_neg (show (chars "</ol>").isPrefixOf (' ' :: '<' :: 'l' :: 'i' :: '>' :: (e ++ chars "</li>\n")) = false from rfl),
      countOcc_cons_neg (show (chars "</ol>").isPrefixOf ('<' :: 'l' :: 'i' :: '>' :: (e ++ chars "</li>\n")) = false from rfl),
      countOcc_cons_neg (show (chars "</ol>").isPrefixOf ('l' :: 'i' :: '>' :: (e ++ chars "</li>\n")) = false from rfl),
      countOcc_cons_neg (show (chars "</ol>").isPrefixOf ('i' :: '>' :: (e ++ chars "</li>\n")) = false from rfl),
      countOcc_cons_neg (show (chars "</ol>").isPrefixOf ('>' :: (e ++ chars "</li>\n")) = false from rfl),
      countOcc_append_no_lt (chars "</ol>") rfl e (chars "</li>\n") he]
    decide
  · show countOcc (chars "<ul>") (' ' :: ' ' :: '<' :: 'l' :: 'i' :: '>' :: (e ++ chars "</li>\n")) = 0
    rw [
      countOcc_cons_neg (show (chars "<ul>").isPrefixOf (' ' :: ' ' :: '<' :: 'l' :: 'i' :: '>' :: (e ++ chars "</li>\n")) = false from rfl),
      countOcc_cons_neg (show (chars "<ul>").isPrefixOf (' ' :: '<' :: 'l' :: 'i' :: '>' :: (e ++ chars "</li>\n")) = false from rfl),
      countOcc_cons_neg (show (chars "<ul>").isPrefixOf ('<' :: 'l' :: 'i' :: '>' :: (e ++ chars "</li>\n")) = false from rfl),
      countOcc_cons_neg (show (chars "<ul>").isPrefixOf ('l' :: 'i' :: '>' :: (e ++ chars "</li>\n")) = false from rfl),
      countOcc_cons_neg (show (chars "<ul>").isPrefixOf ('i' :: '>' :: (e ++ chars "</li>\n")) = false from rfl),
      countOcc_cons_neg (show (chars "<ul>").isPrefixOf ('>' :: (e ++ chars "</li>\n")) = false from rfl),
      countOcc_append_no_lt (chars "<ul>") rfl e (chars "</li>\n") he]
    decide
  · show countOcc (chars "</ul>") (' ' :: ' ' :: '<' :: 'l' :: 'i' :: '>' :: (e ++ chars "</li>\n")) = 0
    rw [
      countOcc_cons_neg (show (chars "</ul>").isPrefixOf (' ' :: ' ' :: '<' :: 'l' :: 'i' :: '>' :: (e ++ chars "</li>\n")) = false from rfl),
      countOcc_cons_neg (show (chars "</ul>").isPrefixOf (' ' :: '<' :: 'l' :: 'i' :: '>' :: (e ++ chars "</li>\n")) = false from rfl),
      countOcc_cons_neg (show (chars "</ul>").isPrefixOf ('<' :: 'l' :: 'i' :: '>' :: (e ++ chars "</li>\n")) = false from rfl),
      countOcc_cons_neg (show (chars "</ul>").isPrefixOf ('l' :: 'i' :: '>' :: (e ++ chars "</li>\n")) = false from rfl),
      countOcc_cons_neg (show (chars "</ul>").isPrefixOf ('i' :: '>' :: (e ++ chars "</li>\n")) = false from rfl),
      countOcc_cons_neg (show (chars "</ul>").isPrefixOf ('>' :: (e ++ chars "</li>\n")) = false from rfl),
      countOcc_append_no_lt (chars "</ul>") rfl e (chars "</li>\n") he]
    decide

theorem countOcc_chunk_p (pat : List Char) (hp : pat ∈ listTagPats) (e : List Char)
    (he : '<' ∉ e) :
    countOcc pat (chars "<p>" ++ e ++ chars "</p>\n") = 0 := by
  rw [List.append_assoc]
  simp only [listTagPats, List.mem_cons, List.mem_singleton] at hp
  rcases hp with rfl | rfl | rfl | rfl | h
  case inr.inr.inr.inr => simp at h
  · show countOcc (chars "<ol>") ('<' :: 'p' :: '>' :: (e ++ chars "</p>\n")) = 0
    rw [
      countOcc_cons_neg (show (chars "<ol>").isPrefixOf ('<' :: 'p' :: '>' :: (e ++ chars "</p>\n")) = false from rfl),
      countOcc_cons_neg (show (chars "<ol>").isPrefixOf ('p' :: '>' :: (e ++ chars "</p>\n")) = false from rfl),
      countOcc_cons_neg (show (chars "<ol>").isPrefixOf ('>' :: (e ++ chars "</p>\n")) = false from rfl),
      countOcc_append_no_lt (chars "<ol>") rfl e (chars "</p>\n") he]
    decide
  · show countOcc (chars "</ol>") ('<' :: 'p' :: '>' :: (e ++ chars "</p>\n")) = 0
    rw [
      countOcc_cons_neg (show (chars "</ol>").isPrefixOf ('<' :: 'p' :: '>' :: (e ++ chars "</p>\n")) = false from rfl),
      countOcc_cons_neg (show (chars "</ol>").isPrefixOf ('p' :: '>' :: (e ++ chars "</p>\n")) = false from rfl),
      countOcc_cons_neg (show (chars "</ol>").isPrefixOf ('>' :: (e ++ chars "</p>\n")) = false from rfl),
      countOcc_append_no_lt (chars "</ol>") rfl e (chars "</p>\n") he]
    decide
  · show countOcc (chars "<ul>") ('<' :: 'p' :: '>' :: (e ++ chars "</p>\n")) = 0
    rw [
      countOcc_cons_neg (show (chars "<ul>").isPrefixOf ('<' :: 'p' :: '>' :: (e ++ chars "</p>\n")) = false from rfl),
      countOcc_cons_neg (show (chars "<ul>").isPrefixOf ('p' :: '>' :: (e ++ chars "</p>\n")) = false from rfl),
      countOcc_cons_neg (show (chars "<ul>").isPrefixOf ('>' :: (e ++ chars "</p>\n")) = false from rfl),
      countOcc_append_no_lt (chars "<ul>") rfl e (chars "</p>\n") he]
    decide
  · show countOcc (chars "</ul>") ('<' :: 'p' :: '>' :: (e ++ chars "</p>\n")) = 0
    rw [
      countOcc_cons_neg (show (chars "</ul>").isPrefixOf ('<' :: 'p' :: '>' :: (e ++ chars "</p>\n")) = false from rfl),
      countOcc_cons_neg (show (chars "</ul>").isPrefixOf ('p' :: '>' :: (e ++ chars "</p>\n")) = false from rfl),
      countOcc_cons_neg (show (chars "</ul>").isPrefixOf ('>' :: (e ++ chars "</p>\n")) = false from rfl),
      countOcc_append_no_lt (chars "</ul>") rfl e (chars "</p>\n") he]
    decide

/-- The accumulated output is empty or ends with a newline (every chunk the
converter emits ends with one). -/
def htmlEndsNl (l : List Char) : Prop := l = [] ∨ l.getLast? = some '\n'

/-- Loop invariant of the markdown converter: the output so far has exactly
one unmatched open tag per raised flag, for each list kind. -/
def mdInv (st : MDState) : Prop :=
  htmlEndsNl st.html
    ∧ countOcc (chars "<ol>") st.html
        = countOcc (chars "</ol>") st.html + (cond st.inOl 1 0)
    ∧ countOcc (chars "<ul>") st.html
        = countOcc (chars "</ul>") st.html + (cond st.inUl 1 0)

theorem htmlEndsNl_append {a b : List Char} (hb : b.getLast? = some '\n') :
    htmlEndsNl (a ++ b) := Or.inr (by simp [List.getLast?_append, hb])

theorem chunkEndsNl (x e z : List Char) (hz : z.getLast? = some '\n') :
    (x ++ e ++ z).getLast? = some '\n' := by
  simp [List.getLast?_append, hz]

/-- Appending one emitted chunk to an invariant-respecting state keeps the
invariant, given the occurrence counts of the chunk and the matching flag
bookkeeping. -/
theorem mdInv_append_chunk {st : MDState} (h : mdInv st) {chunk : List Char}
    (hcend : chunk.getLast? = some '\n')
    {a1 a2 a3 a4 : Nat}
    (c1 : countOcc (chars "<ol>") chunk = a1)
    (c2 : countOcc (chars "</ol>") chunk = a2)
    (c3 : countOcc (chars "<ul>") chunk = a3)
    (c4 : countOcc (chars "</ul>") chunk = a4)
    {fOl fUl : Bool}
    (hOl : cond fOl 1 0 + a2 = cond st.inOl 1 0 + a1)
    (hUl : cond fUl 1 0 + a4 = cond st.inUl 1 0 + a3) :
    mdInv { html := st.html ++ chunk, inOl := fOl, inUl := fUl } := by
  obtain ⟨hE, hO, hU⟩ := h
  refine ⟨htmlEndsNl_append hcend, ?_, ?_⟩
  · show countOcc (chars "<ol>") (st.html ++ chunk)
        = countOcc (chars "</ol>") (st.html ++ chunk) + cond fOl 1 0
    rw [countOcc_append_nl (chars "<ol>") (by decide) (by decide) st.html chunk hE,
      countOcc_append_nl (chars "</ol>") (by decide) (by decide) st.html chunk hE, c1, c2]
    omega
  · show countOcc (chars "<ul>") (st.html ++ chunk)
        = countOcc (chars "</ul>") (st.html ++ chunk) + cond fUl 1 0
    rw [countOcc_append_nl (chars "<ul>") (by decide) (by decide) st.html chunk hE,
      countOcc_append_nl (chars "</ul>") (by decide) (by decide) st.html chunk hE, c3, c4]
    omega

theorem cntsOlClose :
    countOcc (chars "<ol>") (chars "</ol>\n") = 0
      ∧ countOcc (chars "</ol>") (chars "</ol>\n") = 1
      ∧ countOcc (chars "<ul>") (chars "</ol>\n") = 0
      ∧ countOcc (chars "</ul>") (chars "</ol>\n") = 0 := by decide

theorem cntsUlClose :
    countOcc (chars "<ol>") (chars "</ul>\n") = 0
      ∧ countOcc (chars "</ol>") (chars "</ul>\n") = 0
      ∧ countOcc (chars "<ul>") (chars "</ul>\n") = 0
      ∧ countOcc (chars "</ul>") (chars "</ul>\n") = 1 := by decide

theorem cntsOlOpen :
    countOcc (chars "<ol>") (chars "<ol>\n") = 1
      ∧ countOcc (chars "</ol>") (chars "<ol>\n") = 0
      ∧ countOcc (chars "<ul>") (chars "<ol>\n") = 0
      ∧ countOcc (chars "</ul>") (chars "<ol>\n") = 0 := by decide

theorem cntsUlOpen :
    countOcc (chars "<ol>") (chars "<ul>\n") = 0
      ∧ countOcc (chars "</ol>") (chars "<ul>\n") = 0
      ∧ countOcc (chars "<ul>") (chars "<ul>\n") = 1
      ∧ countOcc (chars "</ul>") (chars "<ul>\n") = 0 := by decide

theorem cntsBlank :
    countOcc (chars "<ol>") (chars "\n") = 0
      ∧ countOcc (chars "</ol>") (chars "\n") = 0
      ∧ countOcc (chars "<ul>") (chars "\n") = 0
      ∧ countOcc (chars "</ul>") (chars "\n") = 0 := by decide

theorem mdClose_inv {st : MDState} (h : mdInv st) :
    mdInv (mdClose st) ∧ (mdClose st).inOl = false ∧ (mdClose st).inUl = false := by
  have eol : (chars "</ol>\n").getLast? = some '\n' := rfl
  have eul : (chars "</ul>\n").getLast? = some '\n' := rfl
  by_cases h1 : st.inOl
  · by_cases h2 : st.inUl
    · have hcl : mdClose st
          = { html := st.html ++ chars "</ol>\n" ++ chars "</ul>\n",
              inOl := false, inUl := false } := by
        simp [mdClose, h1, h2]
      have m1 : mdInv { html := st.html ++ chars "</ol>\n", inOl := false, inUl := st.inUl } :=
        mdInv_append_chunk h eol cntsOlClose.1 cntsOlClose.2.1 cntsOlClose.2.2.1
          cntsOlClose.2.2.2 (by simp [h1]) (by simp)
      have m2 : mdInv
          { html := st.html ++ chars "</ol>\n" ++ chars "</ul>\n",
            inOl := false, inUl := false } :=
        mdInv_append_chunk m1 eul cntsUlClose.1 cntsUlClose.2.1 cntsUlClose.2.2.1
          cntsUlClose.2.2.2 (by simp) (by simp [h2])
      rw [hcl]
      exact ⟨m2, rfl, rfl⟩
    · have hcl : mdClose st
          = { html := st.html ++ chars "</ol>\n", inOl := false, inUl := st.inUl } := by
        simp [mdClose, h1, h2]
      rw [hcl]
      exact ⟨mdInv_append_chunk h eol cntsOlClose.1 cntsOlClose.2.1 cntsOlClose.2.2.1
          cntsOlClose.2.2.2 (by simp [h1]) (by simp), rfl, by simpa using h2⟩
  · by_cases h2 : st.inUl
    · have hcl : mdClose st
          = { html := st.html ++ chars "</ul>\n", inOl := st.inOl, inUl := false } := by
        simp [mdClose, h1, h2]
      rw [hcl]
      exact ⟨mdInv_append_chunk h eul cntsUlClose.1 cntsUlClose.2.1 cntsUlClose.2.2.1
          cntsUlClose.2.2.2 (by simp) (by simp [h2]), by simpa using h1, rfl⟩
    · have hcl : mdClose st = st := by
        simp [mdClose, h1, h2]
      rw [hcl]
      exact ⟨h, by simpa using h1, by simpa using h2⟩

theorem endOlClose : (chars "</ol>\n").getLast? = some '\n' := rfl

theorem endUlClose : (chars "</ul>\n").getLast? = some '\n' := rfl

theorem endOlOpen : (chars "<ol>\n").getLast? = some '\n' := rfl

theorem endUlOpen : (chars "<ul>\n").getLast? = some '\n' := rfl

theorem endBlank : (chars "\n").getLast? = some '\n' := rfl

theorem ulCloseStep_inv {st : MDState} (h : mdInv st) :
    mdInv (ulCloseStep st)
      ∧ (ulCloseStep st).inOl = st.inOl ∧ (ulCloseStep st).inUl = false := by
  unfold ulCloseStep
  by_cases hU : st.inUl
  · rw [if_pos hU]
    exact ⟨mdInv_append_chunk h endUlClose cntsUlClose.1 cntsUlClose.2.1 cntsUlClose.2.2.1
        cntsUlClose.2.2.2 (by simp) (by simp [hU]), rfl, rfl⟩
  · rw [if_neg hU]
    exact ⟨h, rfl, by simpa using hU⟩

theorem olOpenStep_inv {st : MDState} (h : mdInv st) :
    mdInv (olOpenStep st)
      ∧ (olOpenStep st).inOl = true ∧ (olOpenStep st).inUl = st.inUl := by
  unfold olOpenStep
  by_cases hO : st.inOl = false
  · rw [if_pos hO]
    exact ⟨mdInv_append_chunk h endOlOpen cntsOlOpen.1 cntsOlOpen.2.1 cntsOlOpen.2.2.1
        cntsOlOpen.2.2.2 (by simp [hO]) (by simp), rfl, rfl⟩
  · rw [if_neg hO]
    exact ⟨h, by simpa using hO, rfl⟩

theorem olCloseStep_inv {st : MDState} (h : mdInv st) :
    mdInv (olCloseStep st)
      ∧ (olCloseStep st).inOl = false ∧ (olCloseStep st).inUl = st.inUl := by
  unfold olCloseStep
  by_cases hO : st.inOl
  · rw [if_pos hO]
    exact ⟨mdInv_append_chunk h endOlClose cntsOlClose.1 cntsOlClose.2.1 cntsOlClose.2.2.1
        cntsOlClose.2.2.2 (by simp [hO]) (by simp), rfl, rfl⟩
  · rw [if_neg hO]
    exact ⟨h, by simpa using hO, rfl⟩

theorem ulOpenStep_inv {st : MDState} (h : mdInv st) :
    mdInv (ulOpenStep st)
      ∧ (ulOpenStep st).inOl = st.inOl ∧ (ulOpenStep st).inUl = true := by
  unfold ulOpenStep
  by_cases hU : st.inUl = false
  · rw [if_pos hU]
    exact ⟨mdInv_append_chunk h endUlOpen cntsUlOpen.1 cntsUlOpen.2.1 cntsUlOpen.2.2.1
        cntsUlOpen.2.2.2 (by simp) (by simp [hU]), rfl, rfl⟩
  · rw [if_neg hU]
    exact ⟨h, rfl, by simpa using hU⟩

/-- Every branch of the line loop preserves the balance invariant. -/
theorem processLine_inv {st : MDState} (h : mdInv st) (line : List Char) :
    mdInv (processLine st line) := by
  obtain ⟨hc, hcOl, hcUl⟩ := mdClose_inv h
  unfold processLine
  by_cases b1 : (chars "### ").isPrefixOf line
  · rw [if_pos b1]
    exact mdInv_append_chunk hc
      (chunkEndsNl (chars "<h3>") (escChars (line.drop 4)) (chars "</h3>\n") rfl)
      (countOcc_chunk_h3 (chars "<ol>") (by decide) (escChars (line.drop 4))
        (escChars_no_lt (line.drop 4)))
      (countOcc_chunk_h3 (chars "</ol>") (by decide) (escChars (line.drop 4))
        (escChars_no_lt (line.drop 4)))
      (countOcc_chunk_h3 (chars "<ul>") (by decide) (escChars (line.drop 4))
        (escChars_no_lt (line.drop 4)))
      (countOcc_chunk_h3 (chars "</ul>") (by decide) (escChars (line.drop 4))
        (escChars_no_lt (line.drop 4)))
      (by simp) (by simp)
  rw [if_neg b1]
  by_cases b2 : (chars "## ").isPrefixOf line
  · rw [if_pos b2]
    exact mdInv_append_chunk hc
      (chunkEndsNl (chars "<h2>") (escChars (line.drop 3)) (chars "</h2>\n") rfl)
      (countOcc_chunk_h2 (chars "<ol>") (by decide) (escChars (line.drop 3))
        (escChars_no_lt (line.drop 3)))
      (countOcc_chunk_h2 (chars "</ol>") (by decide) (escChars (line.drop 3))
        (escChars_no_lt (line.drop 3)))
      (countOcc_chunk_h2 (chars "<ul>") (by decide) (escChars (line.drop 3))
        (escChars_no_lt (line.drop 3)))
      (countOcc_chunk_h2 (chars "</ul>") (by decide) (escChars (line.drop 3))
        (escChars_no_lt (line.drop 3)))
      (by simp) (by simp)
  rw [if_neg b2]
  by_cases b3 : (chars "# ").isPrefixOf line
  · rw [if_pos b3]
    exact mdInv_append_chunk hc
      (chunkEndsNl (chars "<h1>") (escChars (line.drop 2)) (chars "</h1>\n") rfl)
      (countOcc_chunk_h1 (chars "<ol>") (by decide) (escChars (line.drop 2))
        (escChars_no_lt (line.drop 2)))
      (countOcc_chunk_h1 (chars "</ol>") (by decide) (escChars (line.drop 2))
        (escChars_no_lt (line.drop 2)))
      (countOcc_chunk_h1 (chars "<ul>") (by decide) (escChars (line.drop 2))
        (escChars_no_lt (line.drop 2)))
      (countOcc_chunk_h1 (chars "</ul>") (by decide) (escChars (line.drop 2))
        (escChars_no_lt (line.drop 2)))
      (by simp) (by simp)
  rw [if_neg b3]
  by_cases b4 : (olMatchLen line).isSome
  · rw [if_pos b4]
    have m2 := (olOpenStep_inv (ulCloseStep_inv h).1).1
    exact mdInv_append_chunk m2
      (chunkEndsNl (chars "  <li>") (escChars (line.drop ((olMatchLen line).getD 0)))
        (chars "</li>\n") rfl)
      (countOcc_chunk_li (chars "<ol>") (by decide) _
        (escChars_no_lt (line.drop ((olMatchLen line).getD 0))))
      (countOcc_chunk_li (chars "</ol>") (by decide) _
        (escChars_no_lt (line.drop ((olMatchLen line).getD 0))))
      (countOcc_chunk_li (chars "<ul>") (by decide) _
        (escChars_no_lt (line.drop ((olMatchLen line).getD 0))))
      (countOcc_chunk_li (chars "</ul>") (by decide) _
        (escChars_no_lt (line.drop ((olMatchLen line).getD 0))))
      (by simp) (by simp)
  rw [if_neg b4]
  by_cases b5 : (chars "- ").isPrefixOf line
  · rw [if_pos b5]
    have m2 := (ulOpenStep_inv (olCloseStep_inv h).1).1
    exact mdInv_append_chunk m2
      (chunkEndsNl (chars "  <li>") (escChars (line.drop 2)) (chars "</li>\n") rfl)
      (countOcc_chunk_li (chars "<ol>") (by decide) _ (escChars_no_lt (line.drop 2)))
      (countOcc_chunk_li (chars "</ol>") (by decide) _ (escChars_no_lt (line.drop 2)))
      (countOcc_chunk_li (chars "<ul>") (by decide) _ (escChars_no_lt (line.drop 2)))
      (countOcc_chunk_li (chars "</ul>") (by decide) _ (escChars_no_lt (line.drop 2)))
      (by simp) (by simp)
  rw [if_neg b5]
  by_cases b6 : jsTrim line = []
  · rw [if_pos b6]
    exact mdInv_append_chunk hc endBlank cntsBlank.1 cntsBlank.2.1 cntsBlank.2.2.1
      cntsBlank.2.2.2 (by simp) (by simp)
  rw [if_neg b6]
  exact mdInv_append_chunk hc
    (chunkEndsNl (chars "<p>") (escChars line) (chars "</p>\n") rfl)
    (countOcc_chunk_p (chars "<ol>") (by decide) (escChars line) (escChars_no_lt line))
    (countOcc_chunk_p (chars "</ol>") (by decide) (escChars line) (escChars_no_lt line))
    (countOcc_chunk_p (chars "<ul>") (by decide) (escChars line) (escChars_no_lt line))
    (countOcc_chunk_p (chars "</ul>") (by decide) (escChars line) (escChars_no_lt line))
    (by simp) (by simp)

theorem foldl_processLine_inv (lines : List (List Char)) :
    ∀ {st : MDState}, mdInv st → mdInv (lines.foldl processLine st) := by
  induction lines with
  | nil => intro st h; exact h
  | cons l ls ih => intro st h; exact ih (processLine_inv h l)

/-- C2: for every input body string, the HTML emitted by renderMarkdown
carries exactly as many closing as opening list tags, separately for the
ordered and the unordered kind — including for inputs ending while a list
is still open, which the final close handles. -/
theorem renderMarkdown_list_balance (content : String) :
    countOcc (chars "<ol>") (renderMarkdown content).data
        = countOcc (chars "</ol>") (renderMarkdown content).data
      ∧ countOcc (chars "<ul>") (renderMarkdown content).data
        = countOcc (chars "</ul>") (renderMarkdown content).data := by
  unfold renderMarkdown
  by_cases hc : truthy (JSVal.str content) = false
  · rw [if_pos hc]
    exact ⟨rfl, rfl⟩
  · rw [if_neg hc]
    have hinit : mdInv { html := [], inOl := false, inUl := false } :=
      ⟨Or.inl rfl, by decide, by decide⟩
    have hfold := foldl_processLine_inv (splitOnChar '\n' content.data) hinit
    obtain ⟨⟨hE, hO, hU⟩, hfOl, hfUl⟩ := mdClose_inv hfold
    rw [hfOl] at hO
    rw [hfUl] at hU
    simpa using ⟨hO, hU⟩

end SupuUni
